import Mathlib

/-!
Verification development for the video-prompt-genie repository.

The repository contains two divergent versions of the prompt assembler:
a natural-language variant (namespace `NL`, from the routes file that returns
a flat sentence) and a JSON variant (namespace `JsonV`, from
`src/server/routes.ts`, which builds a nested object), plus an in-memory
storage adapter (`MemStorage` in `src/server/storage.ts`).

Randomness model: every `Math.random()`-based table selection in the source
picks `arr[Math.floor(Math.random() * arr.length)]`, i.e. an arbitrary index
of the array.  We thread an explicit record of natural-number draws
(`Draws`), one field per call site, and each selection uses its draw modulo
the array length; every index the source can pick is reachable this way and
vice versa.  JavaScript truthiness of optional booleans (`undefined` is
falsy) is modelled by `oGet`/`oProj`; string truthiness (`""` is falsy) by
`jsOrStr`.
-/

/-- JS truthiness of an optional boolean: `undefined` is falsy. -/
def oGet (o : Option Bool) : Bool :=
  o.getD false

/-- JS optional chaining `o?.f` used as a boolean: `undefined` is falsy. -/
def oProj {α : Type} (o : Option α) (f : α → Bool) : Bool :=
  (o.map f).getD false

/-- JS `a || dflt` on an optional string, where the empty string is falsy. -/
def jsOrStr (o : Option String) (dflt : String) : String :=
  match o with
  | none => dflt
  | some s => if s = "" then dflt else s

/-- JS `s || dflt` on a required string field: the empty string is falsy. -/
def jsStr (s dflt : String) : String :=
  if s = "" then dflt else s

/-- JS `Array.prototype.join(sep)`. -/
def joinWith (sep : String) : List String → String
  | [] => ""
  | [x] => x
  | x :: y :: xs => x ++ sep ++ joinWith sep (y :: xs)

/-- Numeric value of a list of decimal digit characters. -/
def digitsVal (l : List Char) : Nat :=
  l.foldl (fun n c => n * 10 + (c.toNat - 48)) 0

/-- JS `parseInt(s)` restricted to decimal inputs: skip leading whitespace,
read an optional sign and then leading decimal digits; `none` models `NaN`.
(The hexadecimal `0x` prefix of the builtin is not modelled; no input in
this code base carries one.) -/
def parseIntJS (s : String) : Option Int :=
  match s.toList.dropWhile Char.isWhitespace with
  | '-' :: rest =>
    let ds := rest.takeWhile Char.isDigit
    if ds.isEmpty then none else some (-(digitsVal ds : Int))
  | '+' :: rest =>
    let ds := rest.takeWhile Char.isDigit
    if ds.isEmpty then none else some (digitsVal ds)
  | rest =>
    let ds := rest.takeWhile Char.isDigit
    if ds.isEmpty then none else some (digitsVal ds)

/-- JS `s.split('-')[0]`: the characters before the first dash. -/
def splitDash (s : String) : String :=
  String.mk (s.toList.takeWhile (fun c => c ≠ '-'))

/-- JS `parseInt(...) || 5`: both `NaN` and `0` are falsy and fall back to 5. -/
def jsOrFive (o : Option Int) : Int :=
  match o with
  | none => 5
  | some k => if k = 0 then 5 else k

/-- Selection `arr[r % arr.length]`, modelling
`arr[Math.floor(Math.random() * arr.length)]` with draw `r`. -/
def pick (l : List String) (r : Nat) : String :=
  l.getD (r % l.length) ""

/-- Lookup in a string-keyed object literal, modelling `table[key]`. -/
def tableGet {α : Type} : List (String × α) → String → Option α
  | [], _ => none
  | (k, v) :: rest, key => if key = k then some v else tableGet rest key

/-- Legacy flat effect toggles (`elements` in the schema). -/
structure Elements where
  weather_effects : Bool
  dynamic_lighting : Bool
  camera_movement : Bool
  deriving DecidableEq, Repr

/-- Optional `shot` group of the schema. -/
structure ShotConfig where
  composition : String
  camera_motion : String
  frame_rate : String
  film_grain : Bool
  deriving DecidableEq, Repr

/-- Optional `subject` group of the schema. -/
structure SubjectConfig where
  include_description : Bool
  include_wardrobe : Bool
  deriving DecidableEq, Repr

/-- Optional `scene` group of the schema. -/
structure SceneConfig where
  include_location : Bool
  include_time_of_day : Bool
  include_environment : Bool
  deriving DecidableEq, Repr

/-- Optional `visual_details` group of the schema. -/
structure VisualDetailsConfig where
  include_action : Bool
  include_props : Bool
  deriving DecidableEq, Repr

/-- Optional `cinematography` group of the schema. -/
structure CinematographyConfig where
  include_lighting : Bool
  include_tone : Bool
  deriving DecidableEq, Repr

/-- Optional `audio` group of the schema. -/
structure AudioConfig where
  include_ambient : Bool
  include_dialogue : Bool
  deriving DecidableEq, Repr

/-- The `promptConfigSchema` input entity (shared schema file): required
open-string enums, required `elements`, and independently optional toggles
and groups (absent is modelled as `none`). -/
structure PromptConfig where
  category : String
  style : String
  duration : String
  complexity : String
  elements : Elements
  enable_shot_details : Option Bool := none
  enable_scene_details : Option Bool := none
  enable_advanced_details : Option Bool := none
  shot : Option ShotConfig := none
  subject : Option SubjectConfig := none
  scene : Option SceneConfig := none
  visual_details : Option VisualDetailsConfig := none
  cinematography : Option CinematographyConfig := none
  audio : Option AudioConfig := none
  color_palette : Option Bool := none
  deriving DecidableEq, Repr

/-- One natural-number draw per random-selection call site of a single
assembler run. -/
structure Draws where
  templateDraw : Nat := 0
  subjectDraw : Nat := 0
  actionDraw : Nat := 0
  wardrobeDraw : Nat := 0
  locationDraw : Nat := 0
  timeDraw : Nat := 0
  environmentDraw : Nat := 0
  propsDraw : Nat := 0
  lightingDraw : Nat := 0
  toneDraw : Nat := 0
  ambientDraw : Nat := 0
  paletteDraw : Nat := 0
  deriving DecidableEq, Repr

namespace NL

/-- Content table of `generateSubjectDescription` in the natural-language
variant of the routes file. -/
def subjects : List (String × List String) :=
  [("Sports & Athletics",
    ["Athletic woman in her late 20s with shoulder-length blonde hair pulled back, wearing blue and white team jersey, focused intense eyes, muscular build from years of training",
     "Young male soccer player, early 20s with short dark hair, tan complexion, wearing red team uniform with sweat glistening, determined expression",
     "Professional tennis player, mid-30s woman with curly brown hair, wearing white athletic wear, graceful yet powerful stance, years of experience evident in her confident demeanor"]),
   ("Urban & Street",
    ["Hip-hop dancer, early 20s Black male with athletic build, wearing baggy jeans and graphic hoodie, gold chain necklace, confident smile and expressive brown eyes",
     "Street artist, mid-20s woman with purple-streaked hair, paint-stained denim jacket over vintage band t-shirt, creative energy radiating from her focused expression",
     "Parkour athlete, late 20s mixed-race male with lean muscular build, wearing fitted black clothing and fingerless gloves, alert hazel eyes scanning the urban environment"]),
   ("Nature & Wildlife",
    ["Majestic golden eagle with 6-foot wingspan, sharp amber eyes, dark brown and golden feathers catching sunlight, powerful talons extended in flight",
     "Mountain wildlife photographer, 40s bearded man in earth-tone outdoor gear, weathered hands holding professional camera, patient and observant demeanor",
     "Wild grizzly bear, massive 800-pound male with thick brown fur, intelligent dark eyes, powerful shoulders and distinctive hump, moving with surprising grace"]),
   ("Human Drama",
    ["Piano teacher, 50s woman with graying hair in elegant bun, wearing flowing cream blouse, gentle yet passionate expression while playing, wedding ring catching light",
     "Young father, early 30s with kind eyes and slight beard stubble, wearing casual button-down shirt, tender expression while interacting with child",
     "Chef in professional kitchen, 40s Latino man with salt-and-pepper hair, white chef coat with food stains, intense concentration while cooking, calloused hands from years of work"]),
   ("Vehicle Action",
    ["Formula 1 driver, late 20s with sharp features visible through helmet visor, wearing red racing suit with sponsor logos, gloved hands gripping steering wheel with precision",
     "Motorcycle racer, mid-30s woman with athletic build, wearing leather racing suit and protective helmet, fierce determination in her posture and stance",
     "Rally car driver, 35-year-old man with focused blue eyes, wearing flame-resistant racing suit and helmet, weathered hands showing years of motorsport experience"]),
   ("Adventure & Extreme",
    ["Rock climber, athletic woman in her 30s with braided auburn hair, wearing climbing harness and chalk-dusted hands, sinewy arms and legs, determined expression scaling cliff face",
     "Professional surfer, 25-year-old man with sun-bleached hair and tanned skin, wearing black wetsuit, balanced stance on surfboard, reading the massive wave with expert timing",
     "Skydiving instructor, experienced 40s woman with short blonde hair, wearing colorful jumpsuit and goggles, confident smile and strong build from years of extreme sports"]),
   ("Romance & Relationships",
    ["Young couple in their 20s, woman with flowing dark hair wearing elegant dress, man in tailored suit with warm smile, holding hands with obvious affection",
     "Middle-aged couple, 40s woman with gentle eyes and natural beauty, man with salt-and-pepper beard, both radiating mature love and contentment",
     "Newlyweds, bride with radiant smile in flowing white dress, groom with tender expression in classic tuxedo, joy evident in their intimate embrace"]),
   ("Action & Adventure",
    ["Adventure explorer, 30s woman with weathered leather jacket and determined gaze, athletic build from years of outdoor challenges, confident stance with survival gear",
     "Treasure hunter, rugged 35-year-old man with stubbled jaw and keen eyes, wearing practical adventure clothing, experienced hands holding ancient map",
     "Expedition leader, strong woman in her 40s with short practical hair, wearing technical outdoor gear, commanding presence with years of wilderness experience"]),
   ("Drama & Emotion",
    ["Theater actress, elegant woman in her 30s with expressive brown eyes, wearing period costume, graceful movements that convey deep emotional range",
     "Grieving widower, distinguished 50s man with kind but sorrowful eyes, wearing simple dark clothing, weathered hands that tell stories of loss and resilience",
     "Young artist, passionate 20s woman with paint-stained fingers and creative energy, wearing bohemian clothing, intense gaze focused on her craft"]),
   ("Comedy & Entertainment",
    ["Stand-up comedian, energetic 30s man with animated facial expressions, wearing casual but stylish clothing, natural charisma and perfect comedic timing",
     "Circus performer, agile woman in her 20s with bright costume and infectious smile, athletic build from years of acrobatic training, joy radiating from every movement",
     "Street entertainer, charismatic 40s man with expressive eyes and theatrical gestures, colorful vintage clothing, natural ability to captivate audiences"]),
   ("Horror & Thriller",
    ["Paranormal investigator, serious 35-year-old woman with sharp eyes and professional demeanor, wearing practical dark clothing, equipment-laden belt, fearless expression",
     "Detective, weathered 40s man with observant gaze and worn leather jacket, experienced hands that have seen too much, methodical approach to solving mysteries",
     "Survivor, young woman in her 20s with determined expression and cautious movements, practical clothing showing signs of struggle, resourceful and alert"]),
   ("Science Fiction",
    ["Space explorer, confident woman in her 30s wearing sleek futuristic suit, intelligent eyes adapted to cosmic environments, advanced technology integrated into her gear",
     "Cyborg engineer, 40s man with partially synthetic features and enhanced abilities, wearing technical jumpsuit with electronic interfaces, calm precision in every movement",
     "Alien contact specialist, brilliant woman in her 40s with kind eyes and patient demeanor, wearing diplomatic attire suitable for first contact scenarios"]),
   ("Documentary Style",
    ["Master craftsman, elderly man in his 60s with skilled weathered hands, wearing traditional work clothing, decades of expertise evident in every careful movement",
     "Cultural anthropologist, scholarly woman in her 50s with observant eyes and respectful demeanor, practical field clothing, notebook always in hand",
     "Wildlife conservationist, passionate 40s man with sun-weathered skin and gentle approach to animals, wearing khaki field gear, deep connection to nature"]),
   ("Fantasy & Magic",
    ["Mystical sorceress, ethereal woman in her 30s with flowing robes and ancient wisdom in her eyes, hands that channel otherworldly energy, graceful supernatural presence",
     "Dragon rider, brave young man in his 20s with wind-swept hair and fearless expression, wearing leather armor with magical runes, bond with mythical creatures",
     "Forest guardian, ageless woman with nature-touched features and flowing green garments, eyes that hold centuries of woodland secrets, protector of magical realms"]),
   ("Music & Dance",
    ["Prima ballerina, elegant woman in her 20s with perfect posture and graceful extensions, wearing classical tutu, years of training evident in every refined movement",
     "Jazz musician, soulful 40s man with expressive hands and deep musical understanding, wearing vintage suit, instrument as natural extension of his being",
     "Contemporary dancer, athletic woman in her 20s with fluid movements and emotional expression, wearing modern dance attire, storytelling through physical artistry"]),
   ("Food & Cooking",
    ["Master chef, passionate 45-year-old man with culinary precision and creative vision, wearing traditional white chef coat, hands that craft edible masterpieces",
     "Pastry artist, delicate woman in her 30s with meticulous attention to detail, wearing clean apron, fingers skilled in creating beautiful desserts",
     "Farm-to-table cook, earthy woman in her 40s with connection to ingredients, wearing casual kitchen attire, knowledge of sustainable cooking practices"]),
   ("Travel & Nature",
    ["Nature photographer, patient woman in her 30s with keen eye for natural beauty, wearing outdoor photography vest, camera as constant companion",
     "Mountain guide, experienced 40s man with strong build and weather-beaten face, wearing technical climbing gear, deep knowledge of wilderness survival",
     "Travel blogger, adventurous woman in her 20s with curious spirit and cultural sensitivity, wearing practical travel clothing, passport stamps telling global stories"]),
   ("Technology",
    ["Software developer, focused woman in her 30s with logical mind and problem-solving skills, wearing comfortable casual clothing, multiple monitors reflecting code",
     "AI researcher, brilliant 40s man with innovative thinking and ethical considerations, wearing business casual attire, bridging human and artificial intelligence",
     "Tech entrepreneur, dynamic woman in her 20s with visionary leadership and startup energy, wearing modern professional clothing, changing world through innovation"]),
   ("Fashion & Beauty",
    ["Fashion designer, creative woman in her 30s with artistic vision and impeccable style, wearing avant-garde clothing of her own design, sketchbook always nearby",
     "Professional model, statuesque woman in her 20s with striking features and confident presence, wearing high-fashion garments, natural ability to embody designer visions",
     "Beauty influencer, charismatic woman in her 20s with flawless makeup skills and engaging personality, wearing trendy clothing, camera-ready at all moments"]),
   ("Business & Professional",
    ["CEO executive, authoritative woman in her 40s with sharp business acumen and leadership presence, wearing tailored power suit, commanding respect in boardroom",
     "Investment banker, analytical man in his 30s with quick decision-making skills and market expertise, wearing expensive business attire, phone constantly in hand",
     "Management consultant, strategic woman in her 30s with problem-solving mindset and client focus, wearing professional consulting attire, presentation materials ready"])]

/-- Content table of `generateWardrobeDescription` (natural-language variant). -/
def wardrobe : List (String × List String) :=
  [("Sports & Athletics",
    ["Professional team jersey, athletic shorts, high-performance cleats",
     "Racing suit with sponsor logos, protective helmet, specialized footwear",
     "Training gear with moisture-wicking fabric, compression elements"]),
   ("Urban & Street",
    ["Streetwear ensemble with designer sneakers, graphic elements",
     "Urban casual with layered textures, contemporary accessories",
     "Hip-hop inspired outfit with bold colors and statement pieces"]),
   ("Nature & Wildlife",
    ["Outdoor expedition gear with weather-resistant materials",
     "Field researcher attire with practical pockets and earth tones",
     "Safari-style clothing with sun protection and utility features"]),
   ("Human Drama",
    ["Business professional attire reflecting character\x27s occupation",
     "Casual everyday clothing with personal style elements",
     "Formal wear appropriate to dramatic scene context"]),
   ("Vehicle Action",
    ["Racing suit with flame-resistant materials, sponsor patches",
     "Mechanic coveralls with tool accessories, safety equipment",
     "Driving gloves, protective helmet, professional motorsport attire"]),
   ("Adventure & Extreme",
    ["Technical outdoor gear with safety equipment and weatherproofing",
     "Extreme sports attire with protective padding and specialized accessories",
     "Adventure clothing with quick-dry materials and multiple pockets"])]

/-- Content table of `generateLocationDescription` (natural-language variant). -/
def locations : List (String × List String) :=
  [("Sports & Athletics",
    ["Professional stadium with packed stands and field lighting",
     "Training facility with modern equipment and clean lines",
     "Outdoor sports complex with natural grass and scenic backdrop"]),
   ("Urban & Street",
    ["Downtown cityscape with towering buildings and neon signs",
     "Street-level urban environment with graffiti and concrete textures",
     "Rooftop location overlooking metropolitan skyline"]),
   ("Nature & Wildlife",
    ["Pristine wilderness with untouched natural beauty",
     "National park setting with diverse ecosystem elements",
     "Remote outdoor location far from civilization"]),
   ("Human Drama",
    ["Interior domestic space with warm lighting and personal touches",
     "Professional workplace environment with contemporary design",
     "Public space where human stories naturally unfold"]),
   ("Vehicle Action",
    ["Professional racing track with safety barriers and timing equipment",
     "Winding mountain road with challenging curves and elevation",
     "Urban street circuit with city backdrop and tight corners"]),
   ("Adventure & Extreme",
    ["Remote mountain location with dramatic elevation and exposure",
     "Extreme sports venue with specialized safety equipment",
     "Wilderness setting that challenges human limits and abilities"])]

/-- Array of `getRandomTimeOfDay` (natural-language variant). -/
def times : List String :=
  ["dawn", "early morning", "mid-morning", "noon", "afternoon", "golden hour",
   "dusk", "evening", "night", "late night"]

/-- Content table of `generateEnvironmentDescription` (natural-language variant). -/
def environments : List (String × List String) :=
  [("Sports & Athletics",
    ["High-energy atmosphere with crowd noise and competitive tension",
     "Professional setting with pristine conditions and optimal lighting",
     "Training environment with focused intensity and athletic equipment"]),
   ("Urban & Street",
    ["Urban energy with city sounds, traffic, and metropolitan atmosphere",
     "Street culture environment with music, art, and community presence",
     "Contemporary city setting with modern architecture and urban design"]),
   ("Nature & Wildlife",
    ["Natural soundscape with wind, water, and wildlife ambiance",
     "Pristine environment showcasing untouched natural beauty",
     "Ecosystem in balance with seasonal changes and natural rhythms"]),
   ("Human Drama",
    ["Intimate setting that supports emotional storytelling",
     "Environment that reflects character\x27s internal state",
     "Space designed for human connection and meaningful interaction"]),
   ("Vehicle Action",
    ["High-speed environment with engine sounds and mechanical precision",
     "Racing atmosphere with competitive energy and technical focus",
     "Automotive setting showcasing speed, power, and control"]),
   ("Adventure & Extreme",
    ["Challenging environment that tests human limits and courage",
     "Natural setting with elements of danger and excitement",
     "Extreme conditions requiring specialized skills and equipment"])]

/-- Content table of `generatePropsDescription` (natural-language variant). -/
def propsTable : List (String × List String) :=
  [("Sports & Athletics",
    ["Professional sports equipment, team banners, scoreboards",
     "Training apparatus, coaching tools, athletic accessories",
     "Competition markers, timing equipment, safety gear"]),
   ("Urban & Street",
    ["Street art supplies, urban furniture, city infrastructure",
     "Performance props, music equipment, cultural artifacts",
     "Transportation elements, architectural features, signage"]),
   ("Nature & Wildlife",
    ["Natural elements like rocks, branches, water features",
     "Scientific equipment for field research and observation",
     "Camping gear, hiking equipment, outdoor survival tools"]),
   ("Human Drama",
    ["Personal belongings that tell character\x27s story",
     "Work-related tools and professional equipment",
     "Domestic items that create intimate atmosphere"]),
   ("Vehicle Action",
    ["Racing equipment, tools, mechanical parts",
     "Track safety gear, timing devices, communication equipment",
     "Vehicle modifications, performance indicators, technical instruments"]),
   ("Adventure & Extreme",
    ["Specialized safety equipment, climbing gear, protective elements",
     "Adventure tools, navigation equipment, emergency supplies",
     "Extreme sports apparatus, weather monitoring devices"])]

/-- Content table of `generateLightingDescription` (natural-language variant). -/
def lighting : List (String × List String) :=
  [("Cinematic",
    ["Dramatic three-point lighting with deep shadows and strong contrast",
     "Golden hour natural lighting with warm practical sources",
     "Professional film lighting with controlled shadows and highlights"]),
   ("Documentary",
    ["Available light with minimal artificial enhancement for authenticity",
     "Natural lighting that preserves realistic atmosphere",
     "Documentary-style lighting that supports truth and realism"]),
   ("Commercial",
    ["Polished professional lighting with even coverage and product focus",
     "High-key lighting setup for commercial appeal and clarity",
     "Studio-quality lighting with perfect exposure and color balance"]),
   ("Artistic",
    ["Creative lighting design with experimental shadows and color temperature",
     "Artistic illumination that supports visual storytelling and mood",
     "Innovative lighting approach with unique angles and creative techniques"])]

/-- Content table of `generateToneDescription` (natural-language variant). -/
def tones : List (String × List String) :=
  [("Cinematic",
    ["dramatic and immersive", "epic and heroic", "intimate and emotional"]),
   ("Documentary",
    ["authentic and truthful", "observational and respectful", "educational and informative"]),
   ("Commercial",
    ["polished and appealing", "energetic and engaging", "professional and trustworthy"]),
   ("Artistic",
    ["creative and expressive", "experimental and unique", "visually striking and memorable"])]

/-- Content table of `generateAmbientDescription` (natural-language variant). -/
def ambient : List (String × List String) :=
  [("Sports & Athletics",
    ["Stadium crowd noise, whistle sounds, equipment impacts",
     "Training facility acoustics with echo and equipment noise",
     "Outdoor sports sounds with natural environment audio"]),
   ("Urban & Street",
    ["City traffic, street music, urban construction sounds",
     "Metropolitan ambiance with sirens and crowd noise",
     "Street culture audio with music and conversation"]),
   ("Nature & Wildlife",
    ["Natural soundscape with wind, water, and animal calls",
     "Wilderness audio with rustling leaves and distant sounds",
     "Ecosystem sounds reflecting natural harmony and seasonal changes"]),
   ("Human Drama",
    ["Interior acoustics with room tone and household sounds",
     "Workplace ambiance with office equipment and conversation",
     "Domestic environment with familiar everyday audio"]),
   ("Vehicle Action",
    ["Engine sounds, tire noise, mechanical audio elements",
     "Racing environment with crowd noise and competition audio",
     "Automotive sounds reflecting speed and mechanical precision"]),
   ("Adventure & Extreme",
    ["Outdoor adventure sounds with wind and natural elements",
     "Extreme sports audio with equipment and environmental noise",
     "Wilderness sounds reflecting challenge and excitement"])]

/-- Content table of `generateColorPalette` (natural-language variant). -/
def palettes : List (String × List String) :=
  [("Cinematic",
    ["Warm amber and deep blue contrast with rich shadows",
     "Desaturated earth tones with selective color highlights",
     "High contrast black and white with selective golden accents"]),
   ("Documentary",
    ["Natural color palette preserving authentic environmental tones",
     "Realistic color grading with minimal saturation enhancement",
     "True-to-life colors that support documentary authenticity"]),
   ("Commercial",
    ["Bright, saturated colors with high energy and appeal",
     "Clean color palette with strong brand-friendly tones",
     "Polished color grading with commercial shine and clarity"]),
   ("Artistic",
    ["Experimental color treatment with creative artistic vision",
     "Unique color combinations that support visual storytelling",
     "Creative color grading with artistic flair and innovation"])]

/-- Content table of `generateActionDescription` (natural-language variant). -/
def actions : List (String × List String) :=
  [("Sports & Athletics",
    ["performs spectacular diving catch during crucial game moment",
     "sprints across field under stadium lights, dodging defenders",
     "executes perfect bicycle kick in slow motion",
     "leaps for slam dunk with dramatic lighting",
     "serves tennis ball with powerful precision",
     "completes gymnastics routine with graceful landing"]),
   ("Action & Adventure",
    ["navigates treacherous mountain pass with determination",
     "leaps across dangerous chasm in ancient ruins",
     "scales towering cliff face during thunderstorm",
     "pursues through dense jungle canopy",
     "rappels down steep canyon wall",
     "crosses narrow bridge over raging river"]),
   ("Drama & Emotion",
    ["sits quietly by rain-streaked window processing emotions",
     "embraces loved one after long separation",
     "delivers powerful speech to captivated audience",
     "works late into night by lamplight",
     "reads letter with tears in eyes",
     "comforts friend during difficult moment"]),
   ("Comedy & Entertainment",
    ["delivers perfectly timed comedic gesture on stage",
     "performs elaborate pratfall with expert timing",
     "engages audience with animated storytelling",
     "executes complex dance routine with humor",
     "improvises witty response to unexpected situation",
     "entertains crowd with magic tricks and jokes"]),
   ("Horror & Thriller",
    ["cautiously explores dimly lit corridor",
     "hides in shadows while tension builds",
     "investigates mysterious sounds in darkness",
     "flees through fog-covered cemetery",
     "discovers hidden room behind bookshelf",
     "confronts supernatural presence with courage"]),
   ("Romance & Relationships",
    ["shares intimate moment in softly lit garden",
     "dances together under starlit sky",
     "walks hand in hand along beach at sunset",
     "prepares surprise dinner by candlelight",
     "exchanges meaningful glances across crowded room",
     "writes heartfelt love letter at antique desk"]),
   ("Science Fiction",
    ["examines advanced technology in spacecraft interior",
     "navigates through holographic interface displays",
     "explores alien landscape with scanning equipment",
     "operates complex futuristic machinery",
     "communicates with alien life forms",
     "travels through interdimensional portal"]),
   ("Documentary Style",
    ["demonstrates traditional craft with weathered hands",
     "works in natural environment showcasing expertise",
     "explains process to camera with authentic passion",
     "preserves cultural tradition through skilled practice",
     "shares knowledge gained from decades of experience",
     "teaches apprentice time-honored techniques"]),
   ("Fantasy & Magic",
    ["channels ethereal energy in enchanted forest clearing",
     "casts spell with mystical gestures and glowing symbols",
     "soars on magical wings through clouded mountains",
     "discovers ancient artifact in hidden temple",
     "battles mythical creatures with enchanted sword",
     "transforms ordinary objects through magical power"]),
   ("Music & Dance",
    ["performs with passionate intensity under stage lights",
     "moves in perfect rhythm to flowing melody",
     "plays intricate piece on classical instrument",
     "conducts orchestra with dramatic flourishes",
     "improvises solo during jazz performance",
     "teaches complex choreography to eager students"]),
   ("Food & Cooking",
    ["prepares exquisite dish with precise movements",
     "flames leap from sizzling pan in busy kitchen",
     "tastes and seasons with expert palate",
     "plates beautiful dish with artistic flair",
     "kneads bread dough with practiced technique",
     "creates molecular gastronomy masterpiece"]),
   ("Travel & Nature",
    ["stands at edge of magnificent vista",
     "hikes through pristine wilderness trail",
     "photographs stunning landscape at golden hour",
     "camps under star-filled night sky",
     "explores hidden waterfall in remote forest",
     "watches sunrise from mountain summit"]),
   ("Technology",
    ["works intently with cutting-edge equipment",
     "codes complex algorithm on multiple screens",
     "assembles precision electronic components",
     "demonstrates innovative prototype device",
     "troubleshoots advanced robotic system",
     "presents breakthrough research to colleagues"]),
   ("Fashion & Beauty",
    ["showcases elegant attire with confident grace",
     "poses for camera with professional poise",
     "applies makeup with artistic precision",
     "walks runway with commanding presence",
     "designs custom garment on dress form",
     "styles hair for glamorous photo shoot"]),
   ("Business & Professional",
    ["presents innovative ideas in modern conference room",
     "negotiates deal with confident handshake",
     "works focused at executive desk",
     "leads team meeting with engaging presence",
     "analyzes financial data on multiple monitors",
     "mentors junior colleague with patience"])]

/-- Source: `subjects[category] || subjects["Sports & Athletics"]`, then a
uniform random pick. -/
def generateSubjectDescription (category : String) (r : Nat) : String :=
  pick ((tableGet subjects category).getD ((tableGet subjects "Sports & Athletics").getD [])) r

/-- Wardrobe selector with the same fallback scheme. -/
def generateWardrobeDescription (category : String) (r : Nat) : String :=
  pick ((tableGet wardrobe category).getD ((tableGet wardrobe "Sports & Athletics").getD [])) r

/-- Location selector with the same fallback scheme. -/
def generateLocationDescription (category : String) (r : Nat) : String :=
  pick ((tableGet locations category).getD ((tableGet locations "Sports & Athletics").getD [])) r

/-- Uniform random pick from the fixed array of times of day. -/
def getRandomTimeOfDay (r : Nat) : String :=
  pick times r

/-- Environment selector with the same fallback scheme. -/
def generateEnvironmentDescription (category : String) (r : Nat) : String :=
  pick ((tableGet environments category).getD ((tableGet environments "Sports & Athletics").getD [])) r

/-- Props selector with the same fallback scheme. -/
def generatePropsDescription (category : String) (r : Nat) : String :=
  pick ((tableGet propsTable category).getD ((tableGet propsTable "Sports & Athletics").getD [])) r

/-- Lighting selector, keyed by style with fallback `"Cinematic"`. -/
def generateLightingDescription (style : String) (r : Nat) : String :=
  pick ((tableGet lighting style).getD ((tableGet lighting "Cinematic").getD [])) r

/-- Tone selector, keyed by style with fallback `"Cinematic"`. -/
def generateToneDescription (style : String) (r : Nat) : String :=
  pick ((tableGet tones style).getD ((tableGet tones "Cinematic").getD [])) r

/-- Ambient-audio selector with the category fallback scheme. -/
def generateAmbientDescription (category : String) (r : Nat) : String :=
  pick ((tableGet ambient category).getD ((tableGet ambient "Sports & Athletics").getD [])) r

/-- Color-palette selector, keyed by style with fallback `"Cinematic"`. -/
def generateColorPalette (style : String) (r : Nat) : String :=
  pick ((tableGet palettes style).getD ((tableGet palettes "Cinematic").getD [])) r

/-- Action selector with the category fallback scheme. -/
def generateActionDescription (category : String) (r : Nat) : String :=
  pick ((tableGet actions category).getD ((tableGet actions "Sports & Athletics").getD [])) r

/-- Tag for each `promptParts.push` site of the natural-language assembler,
in source order. -/
inductive Clause where
  | subjectDesc
  | action
  | wardrobe
  | shot
  | scene
  | props
  | cinematography
  | ambientAudio
  | dialogue
  | colorPalette
  | styleMod
  | complexityMod
  | durationCtx
  | closing
  deriving DecidableEq, Repr

/-- The `shotDetails` array built inside the shot-composition branch. -/
def shotDetails (s : ShotConfig) : List String :=
  [jsStr s.composition "Medium shot"]
    ++ (if s.camera_motion ≠ "" ∧ s.camera_motion ≠ "static" then
          [s.camera_motion ++ " camera movement"] else [])
    ++ (if s.frame_rate ≠ "" then ["shot at " ++ s.frame_rate] else [])
    ++ (if s.film_grain then ["with fine film grain texture"] else [])

/-- Wardrobe push site: `enable_scene_details && subject?.include_wardrobe`. -/
def wardrobePart (config : PromptConfig) (d : Draws) : List (Clause × String) :=
  if oGet config.enable_scene_details ∧ oProj config.subject (fun s => s.include_wardrobe) then
    [(Clause.wardrobe, "wearing " ++ (generateWardrobeDescription config.category d.wardrobeDraw).toLower)]
  else []

/-- Shot push site: `enable_shot_details && config.shot`, then the joined
detail list with a trailing period. -/
def shotPart (config : PromptConfig) : List (Clause × String) :=
  if oGet config.enable_shot_details then
    match config.shot with
    | some s => [(Clause.shot, joinWith ", " (shotDetails s) ++ ".")]
    | none => []
  else []

/-- The `sceneElements` array collected inside the scene branch. -/
def sceneElements (config : PromptConfig) (d : Draws) : List String :=
  (if oProj config.scene (fun s => s.include_location) then
     ["Location: " ++ generateLocationDescription config.category d.locationDraw] else [])
    ++ (if oProj config.scene (fun s => s.include_time_of_day) then
          ["Time: " ++ getRandomTimeOfDay d.timeDraw] else [])
    ++ (if oProj config.scene (fun s => s.include_environment) then
          [generateEnvironmentDescription config.category d.environmentDraw] else [])

/-- Scene push site: gated by `enable_scene_details` and a non-empty
`sceneElements`. -/
def scenePart (config : PromptConfig) (d : Draws) : List (Clause × String) :=
  if oGet config.enable_scene_details then
    if sceneElements config d = [] then []
    else [(Clause.scene, joinWith ". " (sceneElements config d) ++ ".")]
  else []

/-- Props push site, nested inside the `enable_scene_details` branch. -/
def propsPart (config : PromptConfig) (d : Draws) : List (Clause × String) :=
  if oGet config.enable_scene_details ∧ oProj config.visual_details (fun v => v.include_props) then
    [(Clause.props, "Scene includes: " ++ (generatePropsDescription config.category d.propsDraw).toLower ++ ".")]
  else []

/-- The legacy `effects` array built from the three flat boolean toggles. -/
def effectsList (e : Elements) : List String :=
  (if e.weather_effects then ["dynamic weather effects"] else [])
    ++ (if e.dynamic_lighting then ["dramatic lighting changes"] else [])
    ++ (if e.camera_movement then ["fluid camera movement"] else [])

/-- The `cinematographyElements` array: lighting and tone gated by
`enable_advanced_details`, plus the unconditional effects entry. -/
def cinematographyElements (config : PromptConfig) (d : Draws) : List String :=
  (if oGet config.enable_advanced_details then
     (if oProj config.cinematography (fun c => c.include_lighting) then
        ["Lighting: " ++ generateLightingDescription config.style d.lightingDraw] else [])
       ++ (if oProj config.cinematography (fun c => c.include_tone) then
             ["Overall tone: " ++ generateToneDescription config.style d.toneDraw] else [])
   else [])
    ++ (if effectsList config.elements = [] then []
        else ["Enhanced with: " ++ joinWith ", " (effectsList config.elements)])

/-- Cinematography push site: the joined element list when non-empty. -/
def cinematographyPart (config : PromptConfig) (d : Draws) : List (Clause × String) :=
  if cinematographyElements config d = [] then []
  else [(Clause.cinematography, joinWith ". " (cinematographyElements config d) ++ ".")]

/-- Ambient-audio push site, inside the `enable_advanced_details` branch. -/
def ambientPart (config : PromptConfig) (d : Draws) : List (Clause × String) :=
  if oGet config.enable_advanced_details ∧ oProj config.audio (fun a => a.include_ambient) then
    [(Clause.ambientAudio, "Audio: " ++ generateAmbientDescription config.category d.ambientDraw ++ ".")]
  else []

/-- The number embedded in the dialogue sentence:
`parseInt(config.duration.split('-')[0]) || 5`. -/
def dialogueDurationNumber (duration : String) : Int :=
  jsOrFive (parseIntJS (splitDash duration))

/-- Dialogue push site, inside the `enable_advanced_details` branch. -/
def dialoguePart (config : PromptConfig) : List (Clause × String) :=
  if oGet config.enable_advanced_details ∧ oProj config.audio (fun a => a.include_dialogue) then
    [(Clause.dialogue,
      "Features " ++ toString (dialogueDurationNumber config.duration)
        ++ "-second dialogue segment with documentary-style narration.")]
  else []

/-- Color-palette push site, inside the `enable_advanced_details` branch. -/
def colorPalettePart (config : PromptConfig) (d : Draws) : List (Clause × String) :=
  if oGet config.enable_advanced_details ∧ oGet config.color_palette then
    [(Clause.colorPalette, "Color palette: " ++ generateColorPalette config.style d.paletteDraw ++ ".")]
  else []

/-- Style modifier sentence: one fixed sentence for each of the four known
styles, nothing otherwise. -/
def stylePart (config : PromptConfig) : List (Clause × String) :=
  if config.style = "Cinematic" then
    [(Clause.styleMod, "Shot with cinematic production values and dramatic visual storytelling.")]
  else if config.style = "Documentary" then
    [(Clause.styleMod, "Captured with authentic documentary-style cinematography and natural lighting.")]
  else if config.style = "Commercial" then
    [(Clause.styleMod, "Filmed with polished commercial production quality and professional standards.")]
  else if config.style = "Artistic" then
    [(Clause.styleMod, "Created with artistic vision and innovative visual techniques.")]
  else []

/-- Complexity modifier sentence: only for `"Complex"`. -/
def complexityPart (config : PromptConfig) : List (Clause × String) :=
  if config.complexity = "Complex" then
    [(Clause.complexityMod, "Intricate composition with multiple layered visual elements and detailed staging.")]
  else []

/-- The nested ternary mapping `duration` to a narrative-pacing phrase. -/
def durationContext (duration : String) : String :=
  if duration = "3-5 seconds" then "in a quick, impactful moment"
  else if duration = "5-10 seconds" then "unfolding over several dramatic seconds"
  else if duration = "10-15 seconds" then "developing through an extended sequence"
  else "building through a complete narrative arc"

/-- Duration/pacing push site, unconditional. -/
def durationPart (config : PromptConfig) : List (Clause × String) :=
  [(Clause.durationCtx,
    "Scene duration: " ++ config.duration ++ ", " ++ durationContext config.duration ++ ".")]

/-- The fixed closing sentence, pushed unconditionally. -/
def closingText : String :=
  "Photorealistic quality with stunning detail and professional video production standards."

/-- The `promptParts` array of the natural-language
`generatePromptFromConfig`, in push order, with each entry tagged by its
push site. -/
def promptClauses (config : PromptConfig) (d : Draws) : List (Clause × String) :=
  (Clause.subjectDesc, generateSubjectDescription config.category d.subjectDraw)
    :: (Clause.action, generateActionDescription config.category d.actionDraw)
    :: (wardrobePart config d ++ shotPart config ++ scenePart config d
          ++ propsPart config d ++ cinematographyPart config d
          ++ ambientPart config d ++ dialoguePart config
          ++ colorPalettePart config d ++ stylePart config
          ++ complexityPart config ++ durationPart config
          ++ [(Clause.closing, closingText)])

/-- Natural-language `generatePromptFromConfig`: `promptParts.join(" ")`. -/
def generatePromptFromConfig (config : PromptConfig) (d : Draws) : String :=
  joinWith " " ((promptClauses config d).map Prod.snd)

/-- `getRandomComplexity`: a uniform pick from the three complexities. -/
def getRandomComplexity (r : Nat) : String :=
  pick ["Simple", "Medium", "Complex"] r

/-- The variation loop body, iterating `i` up for `k` more steps; `tape i`
holds the complexity draw and the assembler draws of iteration `i`. -/
def variationsFrom (config : PromptConfig) (tape : Nat → Nat × Draws) : Nat → Nat → List String
  | _, 0 => []
  | i, k + 1 =>
    generatePromptFromConfig { config with complexity := getRandomComplexity (tape i).1 } (tape i).2
      :: variationsFrom config tape (i + 1) k

/-- `generatePromptVariations(config, count)`: `count` assembler calls, each
on the input config with only `complexity` re-randomized. -/
def generatePromptVariations (config : PromptConfig) (count : Nat) (tape : Nat → Nat × Draws) : List String :=
  variationsFrom config tape 0 count

/-- Whether any scene sub-element is requested (emptiness test of
`sceneElements`, which depends only on the config). -/
def sceneGate (config : PromptConfig) : Bool :=
  oProj config.scene (fun s => s.include_location)
    || oProj config.scene (fun s => s.include_time_of_day)
    || oProj config.scene (fun s => s.include_environment)

/-- Whether any legacy effect toggle is set. -/
def effectsGate (e : Elements) : Bool :=
  e.weather_effects || e.dynamic_lighting || e.camera_movement

/-- Whether the combined cinematography clause is non-empty. -/
def cinemaGate (config : PromptConfig) : Bool :=
  (oGet config.enable_advanced_details
      && (oProj config.cinematography (fun c => c.include_lighting)
            || oProj config.cinematography (fun c => c.include_tone)))
    || effectsGate config.elements

/-- The sequence of clause tags the natural-language assembler emits for a
given config: a function of the config alone, with the same gating
structure as `promptClauses` but no random draws. -/
def clauseTags (config : PromptConfig) : List Clause :=
  Clause.subjectDesc
    :: Clause.action
    :: ((if oGet config.enable_scene_details ∧ oProj config.subject (fun s => s.include_wardrobe) then
           [Clause.wardrobe] else [])
    ++ (if oGet config.enable_shot_details then
          (match config.shot with
           | some _ => [Clause.shot]
           | none => [])
        else [])
    ++ (if oGet config.enable_scene_details then
          (if sceneGate config then [Clause.scene] else [])
        else [])
    ++ (if oGet config.enable_scene_details ∧ oProj config.visual_details (fun v => v.include_props) then
          [Clause.props] else [])
    ++ (if cinemaGate config then [Clause.cinematography] else [])
    ++ (if oGet config.enable_advanced_details ∧ oProj config.audio (fun a => a.include_ambient) then
          [Clause.ambientAudio] else [])
    ++ (if oGet config.enable_advanced_details ∧ oProj config.audio (fun a => a.include_dialogue) then
          [Clause.dialogue] else [])
    ++ (if oGet config.enable_advanced_details ∧ oGet config.color_palette then
          [Clause.colorPalette] else [])
    ++ (if config.style = "Cinematic" then [Clause.styleMod]
        else if config.style = "Documentary" then [Clause.styleMod]
        else if config.style = "Commercial" then [Clause.styleMod]
        else if config.style = "Artistic" then [Clause.styleMod]
        else [])
    ++ (if config.complexity = "Complex" then [Clause.complexityMod] else [])
    ++ [Clause.durationCtx]
    ++ [Clause.closing])

end NL

namespace JsonV

/-- Content table of `generateSubjectDescription` in `src/server/routes.ts`. -/
def subjects : List (String × List String) :=
  [("Sports & Athletics",
    ["Professional athlete in peak physical condition, mid-30s with athletic build and focused intensity",
     "Young competitor with determined expression, wearing team colors and protective gear",
     "Experienced sports figure with weathered features showing years of dedication"]),
   ("Urban & Street",
    ["Urban artist in streetwear, confident posture with creative energy",
     "City dweller navigating metropolitan environment with purposeful movement",
     "Street performer with expressive features and dynamic presence"]),
   ("Nature & Wildlife",
    ["Wildlife subject in natural habitat, displaying raw power and instinctive behavior",
     "Natural phenomenon showcasing the beauty and force of the elements",
     "Outdoor enthusiast adapted to wilderness environment"]),
   ("Human Drama",
    ["Individual with expressive features conveying deep emotion and authenticity",
     "Character in moment of personal revelation, showing vulnerability and strength",
     "Person engaged in meaningful activity with passionate dedication"]),
   ("Vehicle Action",
    ["Skilled driver with focused concentration and professional technique",
     "Racing enthusiast displaying precision and control under pressure",
     "Vehicle operator demonstrating mastery of complex machinery"]),
   ("Adventure & Extreme",
    ["Extreme sports athlete with fearless expression and specialized equipment",
     "Adventure seeker pushing physical and mental boundaries",
     "Outdoor specialist with weather-worn features and expert technique"])]

/-- Content table of `generateWardrobeDescription` in `src/server/routes.ts`. -/
def wardrobe : List (String × List String) :=
  [("Sports & Athletics",
    ["Professional team jersey, athletic shorts, high-performance cleats",
     "Racing suit with sponsor logos, protective helmet, specialized footwear",
     "Training gear with moisture-wicking fabric, compression elements"]),
   ("Urban & Street",
    ["Streetwear ensemble with designer sneakers, graphic elements",
     "Urban casual with layered textures, contemporary accessories",
     "Hip-hop inspired outfit with bold colors and statement pieces"]),
   ("Nature & Wildlife",
    ["Outdoor expedition gear with weather-resistant materials",
     "Field researcher attire with practical pockets and earth tones",
     "Safari-style clothing with sun protection and utility features"]),
   ("Human Drama",
    ["Business professional attire reflecting character\x27s occupation",
     "Casual everyday clothing with personal style elements",
     "Formal wear appropriate to dramatic scene context"]),
   ("Vehicle Action",
    ["Racing suit with flame-resistant materials, sponsor patches",
     "Mechanic coveralls with tool accessories, safety equipment",
     "Driving gloves, protective helmet, professional motorsport attire"]),
   ("Adventure & Extreme",
    ["Technical outdoor gear with safety equipment and weatherproofing",
     "Extreme sports attire with protective padding and specialized accessories",
     "Adventure clothing with quick-dry materials and multiple pockets"])]

/-- Content table of `generateLocationDescription` in `src/server/routes.ts`. -/
def locations : List (String × List String) :=
  [("Sports & Athletics",
    ["Professional stadium with packed stands and field lighting",
     "Training facility with modern equipment and clean lines",
     "Outdoor sports complex with natural grass and scenic backdrop"]),
   ("Urban & Street",
    ["Downtown cityscape with towering buildings and neon signs",
     "Street-level urban environment with graffiti and concrete textures",
     "Rooftop location overlooking metropolitan skyline"]),
   ("Nature & Wildlife",
    ["Pristine wilderness with untouched natural beauty",
     "National park setting with diverse ecosystem elements",
     "Remote outdoor location far from civilization"]),
   ("Human Drama",
    ["Interior domestic space with warm lighting and personal touches",
     "Professional workplace environment with contemporary design",
     "Public space where human stories naturally unfold"]),
   ("Vehicle Action",
    ["Professional racing track with safety barriers and timing equipment",
     "Winding mountain road with challenging curves and elevation",
     "Urban street circuit with city backdrop and tight corners"]),
   ("Adventure & Extreme",
    ["Remote mountain location with dramatic elevation and exposure",
     "Extreme sports venue with specialized safety equipment",
     "Wilderness setting that challenges human limits and abilities"])]

/-- Array of `getRandomTimeOfDay` in `src/server/routes.ts`. -/
def times : List String :=
  ["dawn", "early morning", "mid-morning", "noon", "afternoon", "golden hour",
   "dusk", "evening", "night", "late night"]

/-- Content table of `generateEnvironmentDescription` in `src/server/routes.ts`. -/
def environments : List (String × List String) :=
  [("Sports & Athletics",
    ["High-energy atmosphere with crowd noise and competitive tension",
     "Professional setting with pristine conditions and optimal lighting",
     "Training environment with focused intensity and athletic equipment"]),
   ("Urban & Street",
    ["Urban energy with city sounds, traffic, and metropolitan atmosphere",
     "Street culture environment with music, art, and community presence",
     "Contemporary city setting with modern architecture and urban design"]),
   ("Nature & Wildlife",
    ["Natural soundscape with wind, water, and wildlife ambiance",
     "Pristine environment showcasing untouched natural beauty",
     "Ecosystem in balance with seasonal changes and natural rhythms"]),
   ("Human Drama",
    ["Intimate setting that supports emotional storytelling",
     "Environment that reflects character\x27s internal state",
     "Space designed for human connection and meaningful interaction"]),
   ("Vehicle Action",
    ["High-speed environment with engine sounds and mechanical precision",
     "Racing atmosphere with competitive energy and technical focus",
     "Automotive setting showcasing speed, power, and control"]),
   ("Adventure & Extreme",
    ["Challenging environment that tests human limits and courage",
     "Natural setting with elements of danger and excitement",
     "Extreme conditions requiring specialized skills and equipment"])]

/-- Content table of `generateActionDescription` in `src/server/routes.ts`. -/
def actions : List (String × List String) :=
  [("Sports & Athletics",
    ["Executes perfect technique with athletic precision and competitive intensity",
     "Demonstrates peak physical performance in crucial competitive moment",
     "Shows athletic mastery through fluid movement and strategic thinking"]),
   ("Urban & Street",
    ["Moves through urban environment with street-smart confidence",
     "Navigates city obstacles with creative problem-solving and style",
     "Expresses urban culture through movement and artistic expression"]),
   ("Nature & Wildlife",
    ["Displays natural instincts and survival behaviors in wild habitat",
     "Demonstrates adaptation to natural environment and seasonal changes",
     "Shows harmony between creature and pristine natural setting"]),
   ("Human Drama",
    ["Reveals deep emotion through authentic facial expression and body language",
     "Communicates complex feelings through subtle gestural storytelling",
     "Displays human vulnerability and strength in meaningful moment"]),
   ("Vehicle Action",
    ["Demonstrates expert vehicle control through technical driving skill",
     "Shows precision and timing in high-speed competitive situation",
     "Executes complex maneuver with mechanical understanding and experience"]),
   ("Adventure & Extreme",
    ["Pushes physical and mental boundaries in challenging extreme situation",
     "Shows courage and skill in face of natural dangers and obstacles",
     "Demonstrates specialized technique required for extreme sports mastery"])]

/-- Content table of `generatePropsDescription` in `src/server/routes.ts`. -/
def propsTable : List (String × List String) :=
  [("Sports & Athletics",
    ["Professional sports equipment, team banners, scoreboards",
     "Training apparatus, coaching tools, athletic accessories",
     "Competition markers, timing equipment, safety gear"]),
   ("Urban & Street",
    ["Street art supplies, urban furniture, city infrastructure",
     "Performance props, music equipment, cultural artifacts",
     "Transportation elements, architectural features, signage"]),
   ("Nature & Wildlife",
    ["Natural elements like rocks, branches, water features",
     "Scientific equipment for field research and observation",
     "Camping gear, hiking equipment, outdoor survival tools"]),
   ("Human Drama",
    ["Personal belongings that tell character\x27s story",
     "Work-related tools and professional equipment",
     "Domestic items that create intimate atmosphere"]),
   ("Vehicle Action",
    ["Racing equipment, tools, mechanical parts",
     "Track safety gear, timing devices, communication equipment",
     "Vehicle modifications, performance indicators, technical instruments"]),
   ("Adventure & Extreme",
    ["Specialized safety equipment, climbing gear, protective elements",
     "Adventure tools, navigation equipment, emergency supplies",
     "Extreme sports apparatus, weather monitoring devices"])]

/-- Content table of `generateLightingDescription` in `src/server/routes.ts`. -/
def lighting : List (String × List String) :=
  [("Cinematic",
    ["Dramatic three-point lighting with deep shadows and strong contrast",
     "Golden hour natural lighting with warm practical sources",
     "Professional film lighting with controlled shadows and highlights"]),
   ("Documentary",
    ["Available light with minimal artificial enhancement for authenticity",
     "Natural lighting that preserves realistic atmosphere",
     "Documentary-style lighting that supports truth and realism"]),
   ("Commercial",
    ["Polished professional lighting with even coverage and product focus",
     "High-key lighting setup for commercial appeal and clarity",
     "Studio-quality lighting with perfect exposure and color balance"]),
   ("Artistic",
    ["Creative lighting design with experimental shadows and color temperature",
     "Artistic illumination that supports visual storytelling and mood",
     "Innovative lighting approach with unique angles and creative techniques"])]

/-- Content table of `generateToneDescription` in `src/server/routes.ts`. -/
def tones : List (String × List String) :=
  [("Cinematic",
    ["dramatic and immersive", "epic and heroic", "intimate and emotional"]),
   ("Documentary",
    ["authentic and truthful", "observational and respectful", "educational and informative"]),
   ("Commercial",
    ["polished and appealing", "energetic and engaging", "professional and trustworthy"]),
   ("Artistic",
    ["creative and expressive", "experimental and unique", "visually striking and memorable"])]

/-- Content table of `generateAmbientDescription` in `src/server/routes.ts`. -/
def ambient : List (String × List String) :=
  [("Sports & Athletics",
    ["Stadium crowd noise, whistle sounds, equipment impacts",
     "Training facility acoustics with echo and equipment noise",
     "Outdoor sports sounds with natural environment audio"]),
   ("Urban & Street",
    ["City traffic, street music, urban construction sounds",
     "Metropolitan ambiance with sirens and crowd noise",
     "Street culture audio with music and conversation"]),
   ("Nature & Wildlife",
    ["Natural soundscape with wind, water, and animal calls",
     "Wilderness audio with rustling leaves and distant sounds",
     "Ecosystem sounds reflecting natural harmony and seasonal changes"]),
   ("Human Drama",
    ["Interior acoustics with room tone and household sounds",
     "Workplace ambiance with office equipment and conversation",
     "Domestic environment with familiar everyday audio"]),
   ("Vehicle Action",
    ["Engine sounds, tire noise, mechanical audio elements",
     "Racing environment with crowd noise and competition audio",
     "Automotive sounds reflecting speed and mechanical precision"]),
   ("Adventure & Extreme",
    ["Outdoor adventure sounds with wind and natural elements",
     "Extreme sports audio with equipment and environmental noise",
     "Wilderness sounds reflecting challenge and excitement"])]

/-- Content table of `generateColorPalette` in `src/server/routes.ts`. -/
def palettes : List (String × List String) :=
  [("Cinematic",
    ["Warm amber and deep blue contrast with rich shadows",
     "Desaturated earth tones with selective color highlights",
     "High contrast black and white with selective golden accents"]),
   ("Documentary",
    ["Natural color palette preserving authentic environmental tones",
     "Realistic color grading with minimal saturation enhancement",
     "True-to-life colors that support documentary authenticity"]),
   ("Commercial",
    ["Bright, saturated colors with high energy and appeal",
     "Clean color palette with strong brand-friendly tones",
     "Polished color grading with commercial shine and clarity"]),
   ("Artistic",
    ["Experimental color treatment with creative artistic vision",
     "Unique color combinations that support visual storytelling",
     "Creative color grading with artistic flair and innovation"])]

/-- `getPromptTemplates()`: per-category arrays of `{ action: ... }`
objects, represented by their single `action` string. -/
def promptTemplates : List (String × List String) :=
  [("Sports & Athletics",
    ["performs spectacular diving catch during crucial game moment",
     "sprints across field under stadium lights, dodging defenders",
     "executes perfect bicycle kick in slow motion",
     "leaps for slam dunk with dramatic lighting"]),
   ("Urban & Street",
    ["leaps between rooftops in urban cityscape at golden hour",
     "weaves through busy downtown traffic in high-speed chase",
     "performs complex dance moves on graffiti-covered wall",
     "launches off ramp in underground parking garage"]),
   ("Nature & Wildlife",
    ["soars through mountain valley with wings spread wide",
     "crashes against rocky cliffs in slow motion during sunset",
     "sprints across African savanna in pursuit of prey",
     "moves through snow-covered forest during twilight"]),
   ("Vehicle Action",
    ["drifts around mountain curve at high speed",
     "leans into tight corner on professional track",
     "launches over sand dune in desert",
     "accelerates down empty highway at sunset"]),
   ("Human Drama",
    ["moves hands across piano keys during emotional performance",
     "works intensively in busy kitchen with flames leaping",
     "inspires students with passionate gesturing",
     "embraces child after long separation"]),
   ("Adventure & Extreme",
    ["scales sheer cliff face during golden hour",
     "freefalls through clouds with arms spread wide",
     "rides massive wave with perfect balance",
     "navigates treacherous trail, launching off jumps"])]

/-- Subject selector of the JSON variant (same fallback scheme). -/
def generateSubjectDescription (category : String) (r : Nat) : String :=
  pick ((tableGet subjects category).getD ((tableGet subjects "Sports & Athletics").getD [])) r

/-- Wardrobe selector of the JSON variant. -/
def generateWardrobeDescription (category : String) (r : Nat) : String :=
  pick ((tableGet wardrobe category).getD ((tableGet wardrobe "Sports & Athletics").getD [])) r

/-- Location selector of the JSON variant. -/
def generateLocationDescription (category : String) (r : Nat) : String :=
  pick ((tableGet locations category).getD ((tableGet locations "Sports & Athletics").getD [])) r

/-- Time-of-day selector of the JSON variant. -/
def getRandomTimeOfDay (r : Nat) : String :=
  pick times r

/-- Environment selector of the JSON variant. -/
def generateEnvironmentDescription (category : String) (r : Nat) : String :=
  pick ((tableGet environments category).getD ((tableGet environments "Sports & Athletics").getD [])) r

/-- Action selector of the JSON variant. -/
def generateActionDescription (category : String) (r : Nat) : String :=
  pick ((tableGet actions category).getD ((tableGet actions "Sports & Athletics").getD [])) r

/-- Props selector of the JSON variant. -/
def generatePropsDescription (category : String) (r : Nat) : String :=
  pick ((tableGet propsTable category).getD ((tableGet propsTable "Sports & Athletics").getD [])) r

/-- Lighting selector of the JSON variant. -/
def generateLightingDescription (style : String) (r : Nat) : String :=
  pick ((tableGet lighting style).getD ((tableGet lighting "Cinematic").getD [])) r

/-- Tone selector of the JSON variant. -/
def generateToneDescription (style : String) (r : Nat) : String :=
  pick ((tableGet tones style).getD ((tableGet tones "Cinematic").getD [])) r

/-- Ambient selector of the JSON variant. -/
def generateAmbientDescription (category : String) (r : Nat) : String :=
  pick ((tableGet ambient category).getD ((tableGet ambient "Sports & Athletics").getD [])) r

/-- Color-palette selector of the JSON variant. -/
def generateColorPalette (style : String) (r : Nat) : String :=
  pick ((tableGet palettes style).getD ((tableGet palettes "Cinematic").getD [])) r

/-- The `baseTemplate` drawn at the top of the JSON assembler. -/
def baseTemplateAction (category : String) (r : Nat) : String :=
  pick ((tableGet promptTemplates category).getD ((tableGet promptTemplates "Sports & Athletics").getD [])) r

/-- The legacy `effects` array of the JSON assembler (same three toggles). -/
def effectsList (e : Elements) : List String :=
  (if e.weather_effects then ["dynamic weather effects"] else [])
    ++ (if e.dynamic_lighting then ["dramatic lighting changes"] else [])
    ++ (if e.camera_movement then ["fluid camera movement"] else [])

/-- The unconditional `shot` object of the JSON output. -/
structure ShotOut where
  composition : String
  camera_motion : String
  frame_rate : String
  film_grain : Option String
  deriving DecidableEq, Repr

/-- The optional `subject` object of the JSON output. -/
structure SubjectOut where
  description : Option String
  wardrobe : Option String
  deriving DecidableEq, Repr

/-- The optional `scene` object of the JSON output. -/
structure SceneOut where
  location : Option String
  time_of_day : Option String
  environment : Option String
  deriving DecidableEq, Repr

/-- The optional `visual_details` object of the JSON output. -/
structure VisualOut where
  action : Option String
  props : Option String
  deriving DecidableEq, Repr

/-- The optional `cinematography` object of the JSON output. -/
structure CinemaOut where
  lighting : Option String
  tone : Option String
  effects : Option String
  deriving DecidableEq, Repr

/-- The `dialogue` object inside `audio`. -/
structure DialogueOut where
  style : String
  voice : String
  duration : Int
  deriving DecidableEq, Repr

/-- The optional `audio` object of the JSON output. -/
structure AudioOut where
  ambient : Option String
  dialogue : Option DialogueOut
  deriving DecidableEq, Repr

/-- The unconditional `settings` object of the JSON output. -/
structure SettingsOut where
  background_music : Bool
  transitions : String
  loop : Bool
  deriving DecidableEq, Repr

/-- The JSON object built by `generatePromptFromConfig` in
`src/server/routes.ts` (the route returns its `JSON.stringify`; absent keys
are `none`). -/
structure JsonPrompt where
  shot : ShotOut
  subject : Option SubjectOut
  scene : Option SceneOut
  visual_details : Option VisualOut
  cinematography : Option CinemaOut
  audio : Option AudioOut
  color_palette : Option String
  settings : SettingsOut
  deriving DecidableEq, Repr

/-- JSON-variant `generatePromptFromConfig`: conditional assembly of the
nested output object, including the final legacy-effects merge into
`cinematography`. -/
def generatePromptFromConfig (config : PromptConfig) (d : Draws) : JsonPrompt :=
  let baseAction := baseTemplateAction config.category d.templateDraw
  let cinematographyBase : Option CinemaOut :=
    match config.cinematography with
    | some c =>
      if c.include_lighting || c.include_tone then
        some { lighting := if c.include_lighting then
                 some (generateLightingDescription config.style d.lightingDraw) else none,
               tone := if c.include_tone then
                 some (generateToneDescription config.style d.toneDraw) else none,
               effects := none }
      else none
    | none => none
  let effects := effectsList config.elements
  { shot :=
      { composition := jsOrStr (config.shot.map (fun s => s.composition)) "Medium shot",
        camera_motion := jsOrStr (config.shot.map (fun s => s.camera_motion)) "handheld",
        frame_rate := jsOrStr (config.shot.map (fun s => s.frame_rate)) "24 fps",
        film_grain := if oProj config.shot (fun s => s.film_grain) then
          some "fine Kodak grain overlay" else none },
    subject :=
      match config.subject with
      | some su =>
        if su.include_description || su.include_wardrobe then
          some { description := if su.include_description then
                   some (generateSubjectDescription config.category d.subjectDraw) else none,
                 wardrobe := if su.include_wardrobe then
                   some (generateWardrobeDescription config.category d.wardrobeDraw) else none }
        else none
      | none => none,
    scene :=
      match config.scene with
      | some sc =>
        if sc.include_location || sc.include_time_of_day || sc.include_environment then
          some { location := if sc.include_location then
                   some (generateLocationDescription config.category d.locationDraw) else none,
                 time_of_day := if sc.include_time_of_day then
                   some (getRandomTimeOfDay d.timeDraw) else none,
                 environment := if sc.include_environment then
                   some (generateEnvironmentDescription config.category d.environmentDraw) else none }
        else none
      | none => none,
    visual_details :=
      match config.visual_details with
      | some v =>
        if v.include_action || v.include_props then
          some { action := if v.include_action then
                   some (jsStr baseAction (generateActionDescription config.category d.actionDraw)) else none,
                 props := if v.include_props then
                   some (generatePropsDescription config.category d.propsDraw) else none }
        else none
      | none => none,
    cinematography :=
      if effects = [] then cinematographyBase
      else
        match cinematographyBase with
        | some c => some { c with effects := some (joinWith ", " effects) }
        | none => some { lighting := none, tone := none, effects := some (joinWith ", " effects) },
    audio :=
      match config.audio with
      | some au =>
        if au.include_ambient || au.include_dialogue then
          some { ambient := if au.include_ambient then
                   some (generateAmbientDescription config.category d.ambientDraw) else none,
                 dialogue := if au.include_dialogue then
                   some { style := "natural conversation",
                          voice := "documentary style (warm, measured, authoritative)",
                          duration := jsOrFive (parseIntJS (splitDash config.duration)) }
                 else none }
        else none
      | none => none,
    color_palette :=
      if oGet config.color_palette then
        some (generateColorPalette config.style d.paletteDraw)
      else none,
    settings := { background_music := false, transitions := "none", loop := false } }

/-- Presence skeleton of a JSON output: which optional sections and
sub-fields are included. -/
def sectionsOf (j : JsonPrompt) : List Bool :=
  [j.subject.isSome,
   (j.subject.bind (fun s => s.description)).isSome,
   (j.subject.bind (fun s => s.wardrobe)).isSome,
   j.scene.isSome,
   (j.scene.bind (fun s => s.location)).isSome,
   (j.scene.bind (fun s => s.time_of_day)).isSome,
   (j.scene.bind (fun s => s.environment)).isSome,
   j.visual_details.isSome,
   (j.visual_details.bind (fun v => v.action)).isSome,
   (j.visual_details.bind (fun v => v.props)).isSome,
   j.cinematography.isSome,
   (j.cinematography.bind (fun c => c.lighting)).isSome,
   (j.cinematography.bind (fun c => c.tone)).isSome,
   (j.cinematography.bind (fun c => c.effects)).isSome,
   j.audio.isSome,
   (j.audio.bind (fun a => a.ambient)).isSome,
   (j.audio.bind (fun a => a.dialogue)).isSome,
   j.color_palette.isSome,
   j.shot.film_grain.isSome]

/-- Whether any legacy effect toggle is set (JSON variant). -/
def effectsGate (e : Elements) : Bool :=
  e.weather_effects || e.dynamic_lighting || e.camera_movement

/-- The presence skeleton predicted from the config alone: used to state
that section gating of the JSON variant does not depend on the draws. -/
def sectionsSpec (config : PromptConfig) : List Bool :=
  [oProj config.subject (fun su => su.include_description || su.include_wardrobe),
   oProj config.subject (fun su => su.include_description),
   oProj config.subject (fun su => su.include_wardrobe),
   oProj config.scene (fun sc => sc.include_location || sc.include_time_of_day || sc.include_environment),
   oProj config.scene (fun sc => sc.include_location),
   oProj config.scene (fun sc => sc.include_time_of_day),
   oProj config.scene (fun sc => sc.include_environment),
   oProj config.visual_details (fun v => v.include_action || v.include_props),
   oProj config.visual_details (fun v => v.include_action),
   oProj config.visual_details (fun v => v.include_props),
   oProj config.cinematography (fun c => c.include_lighting || c.include_tone)
     || effectsGate config.elements,
   oProj config.cinematography (fun c => c.include_lighting),
   oProj config.cinematography (fun c => c.include_tone),
   effectsGate config.elements,
   oProj config.audio (fun a => a.include_ambient || a.include_dialogue),
   oProj config.audio (fun a => a.include_ambient),
   oProj config.audio (fun a => a.include_dialogue),
   oGet config.color_palette,
   oProj config.shot (fun s => s.film_grain)]

/-- The keys of every category-indexed table of the JSON variant. -/
def categoryKeys : List String :=
  subjects.map Prod.fst ++ wardrobe.map Prod.fst ++ locations.map Prod.fst
    ++ environments.map Prod.fst ++ actions.map Prod.fst
    ++ propsTable.map Prod.fst ++ ambient.map Prod.fst
    ++ promptTemplates.map Prod.fst

end JsonV

namespace NL

/-- The keys of every category-indexed table of the natural-language
variant. -/
def categoryKeys : List String :=
  subjects.map Prod.fst ++ wardrobe.map Prod.fst ++ locations.map Prod.fst
    ++ environments.map Prod.fst ++ propsTable.map Prod.fst
    ++ ambient.map Prod.fst ++ actions.map Prod.fst

/-- Spec-side description of the shot-composition clause, written from the
amended claim wording: the composition label (defaulting to "Medium shot"
when empty), then the camera motion (omitted exactly when it is "static" or
empty), the frame rate (omitted when empty) and the film-grain note (when
`film_grain` is set), comma-joined with a trailing period. -/
def shotClauseSpec (s : ShotConfig) : String :=
  let compositionLabel := if s.composition = "" then "Medium shot" else s.composition
  let motion : List String :=
    if s.camera_motion = "static" ∨ s.camera_motion = "" then []
    else [s.camera_motion ++ " camera movement"]
  let rate : List String :=
    if s.frame_rate = "" then [] else ["shot at " ++ s.frame_rate]
  let grain : List String :=
    if s.film_grain then ["with fine film grain texture"] else []
  joinWith ", " (compositionLabel :: (motion ++ rate ++ grain)) ++ "."

end NL

/-- A stored generated prompt (`prompts` table of the shared schema);
`createdAt` is the `Date.getTime()` timestamp. -/
structure StoredPrompt where
  id : Nat
  prompt : String
  category : String
  style : String
  duration : String
  complexity : String
  elements : Elements
  metadata : String
  createdAt : Nat
  deriving DecidableEq, Repr

/-- A stored template (`templates` table of the shared schema). -/
structure Template where
  id : Nat
  name : String
  description : String
  category : String
  promptTemplate : String
  isPopular : Bool
  usageCount : Nat
  rating : Nat
  createdAt : Nat
  deriving DecidableEq, Repr

/-- The private state of `MemStorage`: two insertion-ordered keyed maps and
the two id counters. -/
structure MemStorage where
  prompts : List (Nat × StoredPrompt)
  templates : List (Nat × Template)
  currentPromptId : Nat
  currentTemplateId : Nat
  deriving DecidableEq, Repr

/-- `Map.prototype.get`: first entry with the given key. -/
def mapGet {α : Type} : List (Nat × α) → Nat → Option α
  | [], _ => none
  | (k, v) :: rest, key => if key = k then some v else mapGet rest key

/-- Descending creation-time order used by `getPrompts`
(`b.createdAt.getTime() - a.createdAt.getTime()`). -/
def promptOrder (a b : StoredPrompt) : Prop :=
  b.createdAt ≤ a.createdAt

instance : DecidableRel promptOrder :=
  fun a b => Nat.decLe b.createdAt a.createdAt

instance : IsTotal StoredPrompt promptOrder :=
  ⟨fun a b => Nat.le_total b.createdAt a.createdAt⟩

instance : IsTrans StoredPrompt promptOrder :=
  ⟨fun _ _ _ h1 h2 => Nat.le_trans h2 h1⟩

/-- `MemStorage.getPrompts(limit?)`: all prompts sorted newest first (a
stable sort, like the JS runtime sort), then `limit ? slice(0, limit) :
all` — note that a limit of `0` is falsy in JS and returns everything. -/
def getPrompts (s : MemStorage) (limit : Option Nat) : List StoredPrompt :=
  let allPrompts := List.insertionSort promptOrder (s.prompts.map Prod.snd)
  match limit with
  | some n => if 0 < n then allPrompts.take n else allPrompts
  | none => allPrompts

/-- `MemStorage.getTemplateById`. -/
def getTemplateById (s : MemStorage) (id : Nat) : Option Template :=
  mapGet s.templates id

/-- `MemStorage.updateTemplateUsage`: when the id exists, bump its usage
count in place (`Map.set` on an existing key keeps position); otherwise do
nothing. -/
def updateTemplateUsage (s : MemStorage) (id : Nat) : MemStorage :=
  match mapGet s.templates id with
  | some _ =>
    { s with templates :=
        s.templates.map (fun p =>
          if p.1 = id then (p.1, { p.2 with usageCount := p.2.usageCount + 1 }) else p) }
  | none => s

/-- Outcome of the `POST /api/templates/:id/use` route. -/
inductive UseResponse where
  | ok
  | notFound
  deriving DecidableEq, Repr

/-- The use-template route: look the id up, answer 404 when absent,
otherwise bump the usage count and answer success. -/
def useTemplateRoute (s : MemStorage) (id : Nat) : MemStorage × UseResponse :=
  match getTemplateById s id with
  | none => (s, UseResponse.notFound)
  | some _ => (updateTemplateUsage s id, UseResponse.ok)

/-- Concrete all-zero draw record used to instantiate theorems. -/
def d0 : Draws := {}

/-- Concrete base configuration (the example scenario of the spec). -/
def sampleConfig : PromptConfig where
  category := "Nature & Wildlife"
  style := "Documentary"
  duration := "10-15 seconds"
  complexity := "Simple"
  elements := { weather_effects := true, dynamic_lighting := false, camera_movement := false }

/-- Shot details enabled but no `shot` group supplied. -/
def cfgShotAbsent : PromptConfig :=
  { sampleConfig with enable_shot_details := some true, shot := none }

/-- Shot details enabled with an all-empty `shot` group. -/
def cfgShotEmpty : PromptConfig :=
  { sampleConfig with
      enable_shot_details := some true,
      shot := some { composition := "", camera_motion := "", frame_rate := "", film_grain := false } }

/-- Shot details disabled explicitly. -/
def cfgShotOff : PromptConfig :=
  { sampleConfig with enable_shot_details := some false }

/-- Shot details enabled with a fully populated `shot` group. -/
def cfgShotFull : PromptConfig :=
  { sampleConfig with
      enable_shot_details := some true,
      shot := some { composition := "Close-up", camera_motion := "pan", frame_rate := "24 fps", film_grain := true } }

/-- Advanced details with dialogue, duration beginning with the digit 0. -/
def cfgDialogueZero : PromptConfig :=
  { sampleConfig with
      duration := "0-3 seconds",
      enable_advanced_details := some true,
      audio := some { include_ambient := false, include_dialogue := true } }

/-- Advanced details with dialogue, duration `"5-10 seconds"`. -/
def cfgDialogueFive : PromptConfig :=
  { sampleConfig with
      duration := "5-10 seconds",
      enable_advanced_details := some true,
      audio := some { include_ambient := false, include_dialogue := true } }

/-- A category string that is a key of no content table. -/
def cfgUnknownCategory : PromptConfig :=
  { sampleConfig with category := "Deep Sea Exploration" }

/-- Concrete stored template for storage theorems. -/
def sampleTemplate : Template where
  id := 1
  name := "Epic Sports Action"
  description := "High-energy athletic moments with cinematic flair"
  category := "Sports & Athletics"
  promptTemplate := "A professional athlete performs."
  isPopular := true
  usageCount := 1200
  rating := 48
  createdAt := 0

/-- Concrete stored prompts with distinct creation times. -/
def samplePromptA : StoredPrompt where
  id := 1
  prompt := "first"
  category := "Sports & Athletics"
  style := "Cinematic"
  duration := "5-10 seconds"
  complexity := "Simple"
  elements := { weather_effects := false, dynamic_lighting := false, camera_movement := false }
  metadata := ""
  createdAt := 10

/-- A prompt created later than `samplePromptA`. -/
def samplePromptB : StoredPrompt where
  id := 2
  prompt := "second"
  category := "Urban & Street"
  style := "Artistic"
  duration := "3-5 seconds"
  complexity := "Complex"
  elements := { weather_effects := false, dynamic_lighting := true, camera_movement := false }
  metadata := ""
  createdAt := 20

/-- Concrete storage state with one template and two prompts. -/
def sampleStorage : MemStorage where
  prompts := [(1, samplePromptA), (2, samplePromptB)]
  templates := [(1, sampleTemplate)]
  currentPromptId := 3
  currentTemplateId := 2

/-- Names of the members every object literal inherits from
`Object.prototype` in the Node runtime: property access `table[key]` on a
content table returns these (truthy functions, or the prototype object for
`__proto__`) before ever yielding `undefined`. -/
def objectProtoKeys : List String :=
  ["constructor", "hasOwnProperty", "isPrototypeOf", "propertyIsEnumerable",
   "toLocaleString", "toString", "valueOf", "__proto__",
   "__defineGetter__", "__defineSetter__", "__lookupGetter__", "__lookupSetter__"]

/-- Result of a JS property access `table[key]` on an object literal: an
own entry (the fragment array), an inherited `Object.prototype` member
(truthy but not an array), or `undefined`. -/
inductive JsMember (α : Type) where
  | own (value : α)
  | inherited
  | undef
  deriving DecidableEq, Repr

/-- JS property access on a content table, prototype chain included. -/
def jsIndex {α : Type} (tbl : List (String × α)) (key : String) : JsMember α :=
  match tableGet tbl key with
  | some v => JsMember.own v
  | none => if key ∈ objectProtoKeys then JsMember.inherited else JsMember.undef

/-- Refined model of a fragment selector
(`table[category] || table[dflt]`, then the random index): an own array
yields one of its fragments; an inherited member is truthy, so the `||`
fallback does not fire and the numeric index into a function (or the
prototype object) yields `undefined`, modelled as `none`; only a genuinely
absent key falls back to the default category's array.  In the JSON
variant's `baseTemplate` use, this `none` is the `undefined` whose
`.action` access throws a TypeError. -/
def selectFragmentJs (tbl : List (String × List String)) (dflt category : String) (r : Nat) :
    Option String :=
  match jsIndex tbl category with
  | JsMember.own l => some (pick l r)
  | JsMember.inherited => none
  | JsMember.undef => some (pick ((tableGet tbl dflt).getD []) r)

/-- Every category-indexed content table of both assembler variants. -/
def allCategoryTables : List (List (String × List String)) :=
  [NL.subjects, NL.wardrobe, NL.locations, NL.environments, NL.propsTable,
   NL.ambient, NL.actions, JsonV.subjects, JsonV.wardrobe, JsonV.locations,
   JsonV.environments, JsonV.actions, JsonV.propsTable, JsonV.ambient,
   JsonV.promptTemplates]

/-! ### Theorems -/

/-- The legacy effects array is empty exactly when no effect toggle is set. -/
theorem effectsList_eq_nil (e : Elements) :
    NL.effectsList e = [] ↔ NL.effectsGate e = false := by
  unfold NL.effectsList NL.effectsGate
  cases h1 : e.weather_effects <;> cases h2 : e.dynamic_lighting <;>
    cases h3 : e.camera_movement <;> simp [h1, h2, h3]

/-- The scene element array is empty exactly when no scene flag is set. -/
theorem sceneElements_eq_nil (config : PromptConfig) (d : Draws) :
    NL.sceneElements config d = [] ↔ NL.sceneGate config = false := by
  unfold NL.sceneElements NL.sceneGate
  cases h1 : oProj config.scene (fun s => s.include_location) <;>
    cases h2 : oProj config.scene (fun s => s.include_time_of_day) <;>
      cases h3 : oProj config.scene (fun s => s.include_environment) <;> simp [h1, h2, h3]

/-- The cinematography element array is empty exactly when its gate is off. -/
theorem cinematographyElements_eq_nil (config : PromptConfig) (d : Draws) :
    NL.cinematographyElements config d = [] ↔ NL.cinemaGate config = false := by
  have hg := effectsList_eq_nil config.elements
  unfold NL.cinematographyElements NL.cinemaGate
  by_cases he : NL.effectsList config.elements = []
  · have hf : NL.effectsGate config.elements = false := hg.mp he
    cases ha : oGet config.enable_advanced_details <;>
      cases hl : oProj config.cinematography (fun c => c.include_lighting) <;>
        cases ht : oProj config.cinematography (fun c => c.include_tone) <;>
          simp [ha, hl, ht, he, hf]
  · have hf : NL.effectsGate config.elements = true := by
      cases hgg : NL.effectsGate config.elements
      · exact absurd (hg.mpr hgg) he
      · rfl
    cases ha : oGet config.enable_advanced_details <;>
      cases hl : oProj config.cinematography (fun c => c.include_lighting) <;>
        cases ht : oProj config.cinematography (fun c => c.include_tone) <;>
          simp [ha, hl, ht, he, hf]

/-- Tag skeleton of the wardrobe push site. -/
theorem wardrobePart_map_fst (config : PromptConfig) (d : Draws) :
    (NL.wardrobePart config d).map Prod.fst =
      (if oGet config.enable_scene_details ∧ oProj config.subject (fun s => s.include_wardrobe) then
        [NL.Clause.wardrobe] else []) := by
  unfold NL.wardrobePart; split <;> simp

/-- Tag skeleton of the shot push site. -/
theorem shotPart_map_fst (config : PromptConfig) :
    (NL.shotPart config).map Prod.fst =
      (if oGet config.enable_shot_details then
        (match config.shot with
         | some _ => [NL.Clause.shot]
         | none => [])
       else []) := by
  unfold NL.shotPart
  split
  · cases config.shot <;> simp
  · simp

/-- Tag skeleton of the scene push site. -/
theorem scenePart_map_fst (config : PromptConfig) (d : Draws) :
    (NL.scenePart config d).map Prod.fst =
      (if oGet config.enable_scene_details then
        (if NL.sceneGate config then [NL.Clause.scene] else [])
       else []) := by
  unfold NL.scenePart
  split
  · by_cases hs : NL.sceneElements config d = []
    · rw [if_pos hs]
      have := (sceneElements_eq_nil config d).mp hs
      simp [this]
    · rw [if_neg hs]
      have hgate : NL.sceneGate config = true := by
        cases h : NL.sceneGate config
        · exact absurd ((sceneElements_eq_nil config d).mpr h) hs
        · rfl
      simp [hgate]
  · simp

/-- Tag skeleton of the props push site. -/
theorem propsPart_map_fst (config : PromptConfig) (d : Draws) :
    (NL.propsPart config d).map Prod.fst =
      (if oGet config.enable_scene_details ∧ oProj config.visual_details (fun v => v.include_props) then
        [NL.Clause.props] else []) := by
  unfold NL.propsPart; split <;> simp

/-- Tag skeleton of the cinematography push site. -/
theorem cinematographyPart_map_fst (config : PromptConfig) (d : Draws) :
    (NL.cinematographyPart config d).map Prod.fst =
      (if NL.cinemaGate config then [NL.Clause.cinematography] else []) := by
  unfold NL.cinematographyPart
  by_cases he : NL.cinematographyElements config d = []
  · rw [if_pos he]
    have := (cinematographyElements_eq_nil config d).mp he
    simp [this]
  · rw [if_neg he]
    have hgate : NL.cinemaGate config = true := by
      cases h : NL.cinemaGate config
      · exact absurd ((cinematographyElements_eq_nil config d).mpr h) he
      · rfl
    simp [hgate]

/-- Tag skeleton of the ambient-audio push site. -/
theorem ambientPart_map_fst (config : PromptConfig) (d : Draws) :
    (NL.ambientPart config d).map Prod.fst =
      (if oGet config.enable_advanced_details ∧ oProj config.audio (fun a => a.include_ambient) then
        [NL.Clause.ambientAudio] else []) := by
  unfold NL.ambientPart; split <;> simp

/-- Tag skeleton of the dialogue push site. -/
theorem dialoguePart_map_fst (config : PromptConfig) :
    (NL.dialoguePart config).map Prod.fst =
      (if oGet config.enable_advanced_details ∧ oProj config.audio (fun a => a.include_dialogue) then
        [NL.Clause.dialogue] else []) := by
  unfold NL.dialoguePart; split <;> simp

/-- Tag skeleton of the color-palette push site. -/
theorem colorPalettePart_map_fst (config : PromptConfig) (d : Draws) :
    (NL.colorPalettePart config d).map Prod.fst =
      (if oGet config.enable_advanced_details ∧ oGet config.color_palette then
        [NL.Clause.colorPalette] else []) := by
  unfold NL.colorPalettePart; split <;> simp

/-- Tag skeleton of the style-modifier push site. -/
theorem stylePart_map_fst (config : PromptConfig) :
    (NL.stylePart config).map Prod.fst =
      (if config.style = "Cinematic" then [NL.Clause.styleMod]
       else if config.style = "Documentary" then [NL.Clause.styleMod]
       else if config.style = "Commercial" then [NL.Clause.styleMod]
       else if config.style = "Artistic" then [NL.Clause.styleMod]
       else []) := by
  unfold NL.stylePart
  split <;> try simp
  split <;> try simp
  split <;> try simp
  split <;> simp

/-- Tag skeleton of the complexity-modifier push site. -/
theorem complexityPart_map_fst (config : PromptConfig) :
    (NL.complexityPart config).map Prod.fst =
      (if config.complexity = "Complex" then [NL.Clause.complexityMod] else []) := by
  unfold NL.complexityPart; split <;> simp

/-- The sequence of emitted clause tags depends only on the config, not on
the random draws. -/
theorem promptClauses_map_fst (config : PromptConfig) (d : Draws) :
    (NL.promptClauses config d).map Prod.fst = NL.clauseTags config := by
  unfold NL.promptClauses NL.clauseTags NL.durationPart
  simp only [List.map_cons, List.map_append, List.map_nil,
    wardrobePart_map_fst, shotPart_map_fst, scenePart_map_fst, propsPart_map_fst,
    cinematographyPart_map_fst, ambientPart_map_fst, dialoguePart_map_fst,
    colorPalettePart_map_fst, stylePart_map_fst, complexityPart_map_fst]

/-- JSON variant: the effects array is empty exactly when no toggle is set. -/
theorem effectsListJ_eq_nil (e : Elements) :
    JsonV.effectsList e = [] ↔ JsonV.effectsGate e = false := by
  unfold JsonV.effectsList JsonV.effectsGate
  cases h1 : e.weather_effects <;> cases h2 : e.dynamic_lighting <;>
    cases h3 : e.camera_movement <;> simp [h1, h2, h3]

/-- JSON variant: presence of the `subject` section depends only on config. -/
theorem genJ_subject_isSome (config : PromptConfig) (d : Draws) :
    ((JsonV.generatePromptFromConfig config d).subject).isSome =
      oProj config.subject (fun su => su.include_description || su.include_wardrobe) := by
  unfold JsonV.generatePromptFromConfig oProj
  cases hsu : config.subject with
  | none => simp
  | some su => cases h : (su.include_description || su.include_wardrobe) <;> simp [h]

/-- JSON variant: presence of `subject.description` depends only on config. -/
theorem genJ_subject_description_isSome (config : PromptConfig) (d : Draws) :
    ((JsonV.generatePromptFromConfig config d).subject.bind (fun s => s.description)).isSome =
      oProj config.subject (fun su => su.include_description) := by
  unfold JsonV.generatePromptFromConfig oProj
  cases hsu : config.subject with
  | none => simp
  | some su => cases h1 : su.include_description <;> cases h2 : su.include_wardrobe <;> simp [h1, h2]

/-- JSON variant: presence of `subject.wardrobe` depends only on config. -/
theorem genJ_subject_wardrobe_isSome (config : PromptConfig) (d : Draws) :
    ((JsonV.generatePromptFromConfig config d).subject.bind (fun s => s.wardrobe)).isSome =
      oProj config.subject (fun su => su.include_wardrobe) := by
  unfold JsonV.generatePromptFromConfig oProj
  cases hsu : config.subject with
  | none => simp
  | some su => cases h1 : su.include_description <;> cases h2 : su.include_wardrobe <;> simp [h1, h2]

/-- JSON variant: presence of the `scene` section depends only on config. -/
theorem genJ_scene_isSome (config : PromptConfig) (d : Draws) :
    ((JsonV.generatePromptFromConfig config d).scene).isSome =
      oProj config.scene (fun sc => sc.include_location || sc.include_time_of_day || sc.include_environment) := by
  unfold JsonV.generatePromptFromConfig oProj
  cases hsc : config.scene with
  | none => simp
  | some sc =>
    cases h : (sc.include_location || sc.include_time_of_day || sc.include_environment) <;> simp [h]

/-- JSON variant: presence of `scene.location` depends only on config. -/
theorem genJ_scene_location_isSome (config : PromptConfig) (d : Draws) :
    ((JsonV.generatePromptFromConfig config d).scene.bind (fun s => s.location)).isSome =
      oProj config.scene (fun sc => sc.include_location) := by
  unfold JsonV.generatePromptFromConfig oProj
  cases hsc : config.scene with
  | none => simp
  | some sc =>
    cases h1 : sc.include_location <;> cases h2 : sc.include_time_of_day <;>
      cases h3 : sc.include_environment <;> simp [h1, h2, h3]

/-- JSON variant: presence of `scene.time_of_day` depends only on config. -/
theorem genJ_scene_time_isSome (config : PromptConfig) (d : Draws) :
    ((JsonV.generatePromptFromConfig config d).scene.bind (fun s => s.time_of_day)).isSome =
      oProj config.scene (fun sc => sc.include_time_of_day) := by
  unfold JsonV.generatePromptFromConfig oProj
  cases hsc : config.scene with
  | none => simp
  | some sc =>
    cases h1 : sc.include_location <;> cases h2 : sc.include_time_of_day <;>
      cases h3 : sc.include_environment <;> simp [h1, h2, h3]

/-- JSON variant: presence of `scene.environment` depends only on config. -/
theorem genJ_scene_environment_isSome (config : PromptConfig) (d : Draws) :
    ((JsonV.generatePromptFromConfig config d).scene.bind (fun s => s.environment)).isSome =
      oProj config.scene (fun sc => sc.include_environment) := by
  unfold JsonV.generatePromptFromConfig oProj
  cases hsc : config.scene with
  | none => simp
  | some sc =>
    cases h1 : sc.include_location <;> cases h2 : sc.include_time_of_day <;>
      cases h3 : sc.include_environment <;> simp [h1, h2, h3]

/-- JSON variant: presence of the `visual_details` section depends only on
config. -/
theorem genJ_visual_isSome (config : PromptConfig) (d : Draws) :
    ((JsonV.generatePromptFromConfig config d).visual_details).isSome =
      oProj config.visual_details (fun v => v.include_action || v.include_props) := by
  unfold JsonV.generatePromptFromConfig oProj
  cases hv : config.visual_details with
  | none => simp
  | some v => cases h : (v.include_action || v.include_props) <;> simp [h]

/-- JSON variant: presence of `visual_details.action` depends only on config. -/
theorem genJ_visual_action_isSome (config : PromptConfig) (d : Draws) :
    ((JsonV.generatePromptFromConfig config d).visual_details.bind (fun v => v.action)).isSome =
      oProj config.visual_details (fun v => v.include_action) := by
  unfold JsonV.generatePromptFromConfig oProj
  cases hv : config.visual_details with
  | none => simp
  | some v => cases h1 : v.include_action <;> cases h2 : v.include_props <;> simp [h1, h2]

/-- JSON variant: presence of `visual_details.props` depends only on config. -/
theorem genJ_visual_props_isSome (config : PromptConfig) (d : Draws) :
    ((JsonV.generatePromptFromConfig config d).visual_details.bind (fun v => v.props)).isSome =
      oProj config.visual_details (fun v => v.include_props) := by
  unfold JsonV.generatePromptFromConfig oProj
  cases hv : config.visual_details with
  | none => simp
  | some v => cases h1 : v.include_action <;> cases h2 : v.include_props <;> simp [h1, h2]

/-- JSON variant: presence of the `audio` section depends only on config. -/
theorem genJ_audio_isSome (config : PromptConfig) (d : Draws) :
    ((JsonV.generatePromptFromConfig config d).audio).isSome =
      oProj config.audio (fun a => a.include_ambient || a.include_dialogue) := by
  unfold JsonV.generatePromptFromConfig oProj
  cases ha : config.audio with
  | none => simp
  | some au => cases h : (au.include_ambient || au.include_dialogue) <;> simp [h]

/-- JSON variant: presence of `audio.ambient` depends only on config. -/
theorem genJ_audio_ambient_isSome (config : PromptConfig) (d : Draws) :
    ((JsonV.generatePromptFromConfig config d).audio.bind (fun a => a.ambient)).isSome =
      oProj config.audio (fun a => a.include_ambient) := by
  unfold JsonV.generatePromptFromConfig oProj
  cases ha : config.audio with
  | none => simp
  | some au => cases h1 : au.include_ambient <;> cases h2 : au.include_dialogue <;> simp [h1, h2]

/-- JSON variant: presence of `audio.dialogue` depends only on config. -/
theorem genJ_audio_dialogue_isSome (config : PromptConfig) (d : Draws) :
    ((JsonV.generatePromptFromConfig config d).audio.bind (fun a => a.dialogue)).isSome =
      oProj config.audio (fun a => a.include_dialogue) := by
  unfold JsonV.generatePromptFromConfig oProj
  cases ha : config.audio with
  | none => simp
  | some au => cases h1 : au.include_ambient <;> cases h2 : au.include_dialogue <;> simp [h1, h2]

/-- JSON variant: presence of `color_palette` depends only on config. -/
theorem genJ_palette_isSome (config : PromptConfig) (d : Draws) :
    ((JsonV.generatePromptFromConfig config d).color_palette).isSome = oGet config.color_palette := by
  unfold JsonV.generatePromptFromConfig
  cases h : oGet config.color_palette <;> simp [h]

/-- JSON variant: presence of `shot.film_grain` depends only on config. -/
theorem genJ_film_grain_isSome (config : PromptConfig) (d : Draws) :
    ((JsonV.generatePromptFromConfig config d).shot.film_grain).isSome =
      oProj config.shot (fun s => s.film_grain) := by
  unfold JsonV.generatePromptFromConfig
  cases h : oProj config.shot (fun s => s.film_grain) <;> simp [h]

/-- JSON variant: presence of the `cinematography` section (including the
legacy-effects merge) depends only on config. -/
theorem genJ_cinematography_isSome (config : PromptConfig) (d : Draws) :
    ((JsonV.generatePromptFromConfig config d).cinematography).isSome =
      (oProj config.cinematography (fun c => c.include_lighting || c.include_tone)
        || JsonV.effectsGate config.elements) := by
  unfold JsonV.generatePromptFromConfig oProj
  by_cases he : JsonV.effectsList config.elements = []
  · have hf := (effectsListJ_eq_nil config.elements).mp he
    cases hc : config.cinematography with
    | none => simp [he, hf]
    | some c => cases h : (c.include_lighting || c.include_tone) <;> simp [he, hf, h]
  · have hf : JsonV.effectsGate config.elements = true := by
      cases hgg : JsonV.effectsGate config.elements
      · exact absurd ((effectsListJ_eq_nil config.elements).mpr hgg) he
      · rfl
    cases hc : config.cinematography with
    | none => simp [he, hf]
    | some c => cases h : (c.include_lighting || c.include_tone) <;> simp [he, hf, h]

/-- JSON variant: presence of `cinematography.lighting` depends only on
config. -/
theorem genJ_cinematography_lighting_isSome (config : PromptConfig) (d : Draws) :
    ((JsonV.generatePromptFromConfig config d).cinematography.bind (fun c => c.lighting)).isSome =
      oProj config.cinematography (fun c => c.include_lighting) := by
  unfold JsonV.generatePromptFromConfig oProj
  by_cases he : JsonV.effectsList config.elements = []
  · cases hc : config.cinematography with
    | none => simp [he]
    | some c => cases h1 : c.include_lighting <;> cases h2 : c.include_tone <;> simp [he, h1, h2]
  · cases hc : config.cinematography with
    | none => simp [he]
    | some c => cases h1 : c.include_lighting <;> cases h2 : c.include_tone <;> simp [he, h1, h2]

/-- JSON variant: presence of `cinematography.tone` depends only on config. -/
theorem genJ_cinematography_tone_isSome (config : PromptConfig) (d : Draws) :
    ((JsonV.generatePromptFromConfig config d).cinematography.bind (fun c => c.tone)).isSome =
      oProj config.cinematography (fun c => c.include_tone) := by
  unfold JsonV.generatePromptFromConfig oProj
  by_cases he : JsonV.effectsList config.elements = []
  · cases hc : config.cinematography with
    | none => simp [he]
    | some c => cases h1 : c.include_lighting <;> cases h2 : c.include_tone <;> simp [he, h1, h2]
  · cases hc : config.cinematography with
    | none => simp [he]
    | some c => cases h1 : c.include_lighting <;> cases h2 : c.include_tone <;> simp [he, h1, h2]

/-- JSON variant: presence of `cinematography.effects` depends only on
config. -/
theorem genJ_cinematography_effects_isSome (config : PromptConfig) (d : Draws) :
    ((JsonV.generatePromptFromConfig config d).cinematography.bind (fun c => c.effects)).isSome =
      JsonV.effectsGate config.elements := by
  unfold JsonV.generatePromptFromConfig
  by_cases he : JsonV.effectsList config.elements = []
  · have hf := (effectsListJ_eq_nil config.elements).mp he
    cases hc : config.cinematography with
    | none => simp [he, hf]
    | some c => cases h : (c.include_lighting || c.include_tone) <;> simp [he, hf, h]
  · have hf : JsonV.effectsGate config.elements = true := by
      cases hgg : JsonV.effectsGate config.elements
      · exact absurd ((effectsListJ_eq_nil config.elements).mpr hgg) he
      · rfl
    cases hc : config.cinematography with
    | none => simp [he, hf]
    | some c => cases h : (c.include_lighting || c.include_tone) <;> simp [he, hf, h]

/-- The presence skeleton of a JSON-variant output is a function of the
config alone. -/
theorem sectionsOf_gen (config : PromptConfig) (d : Draws) :
    JsonV.sectionsOf (JsonV.generatePromptFromConfig config d) = JsonV.sectionsSpec config := by
  unfold JsonV.sectionsOf JsonV.sectionsSpec
  rw [genJ_subject_isSome, genJ_subject_description_isSome, genJ_subject_wardrobe_isSome,
    genJ_scene_isSome, genJ_scene_location_isSome, genJ_scene_time_isSome,
    genJ_scene_environment_isSome, genJ_visual_isSome, genJ_visual_action_isSome,
    genJ_visual_props_isSome, genJ_cinematography_isSome, genJ_cinematography_lighting_isSome,
    genJ_cinematography_tone_isSome, genJ_cinematography_effects_isSome, genJ_audio_isSome,
    genJ_audio_ambient_isSome, genJ_audio_dialogue_isSome, genJ_palette_isSome,
    genJ_film_grain_isSome]

/-- C5: two assembler runs on the same config — natural-language and JSON
variants alike — include exactly the same clauses/sections, whatever the
random draws; only fragment text can differ. -/
theorem C5_structure_independent_of_draws (config : PromptConfig) (d1 d2 : Draws) :
    (NL.promptClauses config d1).map Prod.fst = (NL.promptClauses config d2).map Prod.fst ∧
    JsonV.sectionsOf (JsonV.generatePromptFromConfig config d1) =
      JsonV.sectionsOf (JsonV.generatePromptFromConfig config d2) := by
  constructor
  · rw [promptClauses_map_fst, promptClauses_map_fst]
  · rw [sectionsOf_gen, sectionsOf_gen]

/-- A list whose entries all carry tag `t` vanishes under a filter for a
different tag. -/
theorem filter_tag_of_all {t u : NL.Clause} (h : t ≠ u) {l : List (NL.Clause × String)}
    (hall : ∀ x ∈ l, x.1 = t) : l.filter (fun c => decide (c.1 = u)) = [] :=
  List.filter_eq_nil_iff.mpr (fun a ha => by rw [decide_eq_true_eq, hall a ha]; exact h)

/-- A list whose entries all carry tag `t` is unchanged by a filter for `t`. -/
theorem filter_tag_keep {t : NL.Clause} {l : List (NL.Clause × String)}
    (hall : ∀ x ∈ l, x.1 = t) : l.filter (fun c => decide (c.1 = t)) = l :=
  List.filter_eq_self.mpr (fun a ha => by rw [decide_eq_true_eq, hall a ha])

/-- All wardrobe-part entries are tagged `wardrobe`. -/
theorem wardrobePart_tag (config : PromptConfig) (d : Draws) :
    ∀ x ∈ NL.wardrobePart config d, x.1 = NL.Clause.wardrobe := by
  unfold NL.wardrobePart; split <;> simp

/-- All shot-part entries are tagged `shot`. -/
theorem shotPart_tag (config : PromptConfig) :
    ∀ x ∈ NL.shotPart config, x.1 = NL.Clause.shot := by
  unfold NL.shotPart
  split
  · cases config.shot <;> simp
  · simp

/-- All scene-part entries are tagged `scene`. -/
theorem scenePart_tag (config : PromptConfig) (d : Draws) :
    ∀ x ∈ NL.scenePart config d, x.1 = NL.Clause.scene := by
  unfold NL.scenePart
  split
  · split <;> simp
  · simp

/-- All props-part entries are tagged `props`. -/
theorem propsPart_tag (config : PromptConfig) (d : Draws) :
    ∀ x ∈ NL.propsPart config d, x.1 = NL.Clause.props := by
  unfold NL.propsPart; split <;> simp

/-- All cinematography-part entries are tagged `cinematography`. -/
theorem cinematographyPart_tag (config : PromptConfig) (d : Draws) :
    ∀ x ∈ NL.cinematographyPart config d, x.1 = NL.Clause.cinematography := by
  unfold NL.cinematographyPart; split <;> simp

/-- All ambient-part entries are tagged `ambientAudio`. -/
theorem ambientPart_tag (config : PromptConfig) (d : Draws) :
    ∀ x ∈ NL.ambientPart config d, x.1 = NL.Clause.ambientAudio := by
  unfold NL.ambientPart; split <;> simp

/-- All dialogue-part entries are tagged `dialogue`. -/
theorem dialoguePart_tag (config : PromptConfig) :
    ∀ x ∈ NL.dialoguePart config, x.1 = NL.Clause.dialogue := by
  unfold NL.dialoguePart; split <;> simp

/-- All color-palette-part entries are tagged `colorPalette`. -/
theorem colorPalettePart_tag (config : PromptConfig) (d : Draws) :
    ∀ x ∈ NL.colorPalettePart config d, x.1 = NL.Clause.colorPalette := by
  unfold NL.colorPalettePart; split <;> simp

/-- All style-part entries are tagged `styleMod`. -/
theorem stylePart_tag (config : PromptConfig) :
    ∀ x ∈ NL.stylePart config, x.1 = NL.Clause.styleMod := by
  unfold NL.stylePart
  repeat' split
  all_goals simp_all

/-- All complexity-part entries are tagged `complexityMod`. -/
theorem complexityPart_tag (config : PromptConfig) :
    ∀ x ∈ NL.complexityPart config, x.1 = NL.Clause.complexityMod := by
  unfold NL.complexityPart; split <;> simp

/-- All duration-part entries are tagged `durationCtx`. -/
theorem durationPart_tag (config : PromptConfig) :
    ∀ x ∈ NL.durationPart config, x.1 = NL.Clause.durationCtx := by
  unfold NL.durationPart; simp

/-- The shot-tagged entries of an assembler run are exactly the shot part. -/
theorem filter_shot_eq_shotPart (config : PromptConfig) (d : Draws) :
    (NL.promptClauses config d).filter (fun c => decide (c.1 = NL.Clause.shot)) =
      NL.shotPart config := by
  unfold NL.promptClauses
  simp only [List.filter_cons, List.filter_append]
  rw [filter_tag_of_all (by decide) (wardrobePart_tag config d),
    filter_tag_keep (shotPart_tag config),
    filter_tag_of_all (by decide) (scenePart_tag config d),
    filter_tag_of_all (by decide) (propsPart_tag config d),
    filter_tag_of_all (by decide) (cinematographyPart_tag config d),
    filter_tag_of_all (by decide) (ambientPart_tag config d),
    filter_tag_of_all (by decide) (dialoguePart_tag config),
    filter_tag_of_all (by decide) (colorPalettePart_tag config d),
    filter_tag_of_all (by decide) (stylePart_tag config),
    filter_tag_of_all (by decide) (complexityPart_tag config),
    filter_tag_of_all (by decide) (durationPart_tag config)]
  simp

/-- The dialogue-tagged entries of an assembler run are exactly the
dialogue part. -/
theorem filter_dialogue_eq_dialoguePart (config : PromptConfig) (d : Draws) :
    (NL.promptClauses config d).filter (fun c => decide (c.1 = NL.Clause.dialogue)) =
      NL.dialoguePart config := by
  unfold NL.promptClauses
  simp only [List.filter_cons, List.filter_append]
  rw [filter_tag_of_all (by decide) (wardrobePart_tag config d),
    filter_tag_of_all (by decide) (shotPart_tag config),
    filter_tag_of_all (by decide) (scenePart_tag config d),
    filter_tag_of_all (by decide) (propsPart_tag config d),
    filter_tag_of_all (by decide) (cinematographyPart_tag config d),
    filter_tag_of_all (by decide) (ambientPart_tag config d),
    filter_tag_keep (dialoguePart_tag config),
    filter_tag_of_all (by decide) (colorPalettePart_tag config d),
    filter_tag_of_all (by decide) (stylePart_tag config),
    filter_tag_of_all (by decide) (complexityPart_tag config),
    filter_tag_of_all (by decide) (durationPart_tag config)]
  simp

/-- The spec-side shot clause coincides with the code-side joined details. -/
theorem shotClauseSpec_eq (s : ShotConfig) :
    NL.shotClauseSpec s = joinWith ", " (NL.shotDetails s) ++ "." := by
  unfold NL.shotClauseSpec NL.shotDetails jsStr
  by_cases h2 : s.camera_motion = "static" ∨ s.camera_motion = ""
  · have hn : ¬(s.camera_motion ≠ "" ∧ s.camera_motion ≠ "static") := by tauto
    simp [h2, hn]
  · have hy : s.camera_motion ≠ "" ∧ s.camera_motion ≠ "static" := by tauto
    simp [h2, hy]

/-- C2 (counterexample): with shot details enabled but no shot group there
is no shot clause; an empty camera motion is omitted although it is not
"static"; and in the JSON variant the shot composition text is present even
with `enable_shot_details` false. -/
theorem C2_counterexample :
    cfgShotAbsent.enable_shot_details = some true ∧
    (NL.promptClauses cfgShotAbsent d0).filter (fun c => decide (c.1 = NL.Clause.shot)) = [] ∧
    cfgShotEmpty.enable_shot_details = some true ∧
    cfgShotEmpty.shot.map (fun s => s.camera_motion) = some "" ∧
    "" ≠ "static" ∧
    (NL.promptClauses cfgShotEmpty d0).filter (fun c => decide (c.1 = NL.Clause.shot)) =
      [(NL.Clause.shot, "Medium shot.")] ∧
    cfgShotOff.enable_shot_details = some false ∧
    (JsonV.generatePromptFromConfig cfgShotOff d0).shot.composition = "Medium shot" := by
  refine ⟨rfl, ?_, rfl, rfl, by decide, ?_, rfl, ?_⟩
  · rw [filter_shot_eq_shotPart]; rfl
  · rw [filter_shot_eq_shotPart]; rfl
  · rfl

/-- C2 (amended): in the natural-language variant the shot clause appears
exactly when `enable_shot_details` is true and a `shot` group is supplied,
and then it combines the composition label (default "Medium shot" when
empty), the camera motion (omitted when "static" or empty), the frame rate
(omitted when empty) and the film-grain note; in the JSON variant a
non-empty shot composition is always present. -/
theorem C2_amended_shot_clause (config : PromptConfig) (d : Draws) :
    (config.enable_shot_details ≠ some true →
      (NL.promptClauses config d).filter (fun c => decide (c.1 = NL.Clause.shot)) = []) ∧
    (config.enable_shot_details = some true → config.shot = none →
      (NL.promptClauses config d).filter (fun c => decide (c.1 = NL.Clause.shot)) = []) ∧
    (config.enable_shot_details = some true → ∀ s, config.shot = some s →
      (NL.promptClauses config d).filter (fun c => decide (c.1 = NL.Clause.shot)) =
        [(NL.Clause.shot, NL.shotClauseSpec s)]) ∧
    (JsonV.generatePromptFromConfig config d).shot.composition ≠ "" := by
  refine ⟨?_, ?_, ?_, ?_⟩
  · intro h
    rw [filter_shot_eq_shotPart]
    have hfalse : oGet config.enable_shot_details = false := by
      unfold oGet
      cases he : config.enable_shot_details with
      | none => rfl
      | some b => cases b with
        | false => rfl
        | true => exact absurd he h
    simp [NL.shotPart, hfalse]
  · intro h1 h2
    rw [filter_shot_eq_shotPart]
    simp [NL.shotPart, oGet, h1, h2]
  · intro h1 s h2
    rw [filter_shot_eq_shotPart]
    simp [NL.shotPart, oGet, h1, h2, shotClauseSpec_eq]
  · unfold JsonV.generatePromptFromConfig
    cases hs : config.shot with
    | none => simp [jsOrStr]
    | some s =>
      by_cases hc : s.composition = "" <;> simp [jsOrStr, hc]

/-- C2 (witness): the amended theorem applied to a fully populated shot
group. -/
theorem C2_witness :
    cfgShotFull.enable_shot_details = some true ∧
    cfgShotFull.shot = some { composition := "Close-up", camera_motion := "pan", frame_rate := "24 fps", film_grain := true } ∧
    (NL.promptClauses cfgShotFull d0).filter (fun c => decide (c.1 = NL.Clause.shot)) =
      [(NL.Clause.shot, NL.shotClauseSpec { composition := "Close-up", camera_motion := "pan", frame_rate := "24 fps", film_grain := true })] :=
  ⟨rfl, rfl, (C2_amended_shot_clause cfgShotFull d0).2.2.1 rfl _ rfl⟩

/-- C9: every JSON-variant output carries a `settings` object equal to
`{background_music: false, transitions: "none", loop: false}`, and when no
shot group is supplied the unconditional `shot` section holds the defaults
"Medium shot" / "handheld" / "24 fps" with no film grain — independently of
the enable toggles. -/
theorem C9_settings_and_shot_defaults (config : PromptConfig) (d : Draws) :
    (JsonV.generatePromptFromConfig config d).settings =
      { background_music := false, transitions := "none", loop := false } ∧
    (config.shot = none →
      (JsonV.generatePromptFromConfig config d).shot =
        { composition := "Medium shot", camera_motion := "handheld",
          frame_rate := "24 fps", film_grain := none }) := by
  constructor
  · rfl
  · intro h
    unfold JsonV.generatePromptFromConfig
    simp [h, jsOrStr, oProj]

/-- C9 (witness): instantiated at the sample configuration, which has no
shot group. -/
theorem C9_witness :
    sampleConfig.shot = none ∧
    (JsonV.generatePromptFromConfig sampleConfig d0).shot =
      { composition := "Medium shot", camera_motion := "handheld",
        frame_rate := "24 fps", film_grain := none } :=
  ⟨rfl, (C9_settings_and_shot_defaults sampleConfig d0).2 rfl⟩

/-- C4 (counterexample): for duration "0-3 seconds" the leading integer
parses to 0, yet the dialogue sentence embeds 5, not the parsed integer. -/
theorem C4_counterexample :
    parseIntJS (splitDash cfgDialogueZero.duration) = some 0 ∧
    (NL.promptClauses cfgDialogueZero d0).filter (fun c => decide (c.1 = NL.Clause.dialogue)) =
      [(NL.Clause.dialogue, "Features 5-second dialogue segment with documentary-style narration.")] ∧
    (0 : Int) ≠ 5 := by
  refine ⟨by decide, ?_, by decide⟩
  rw [filter_dialogue_eq_dialoguePart]
  rfl

/-- C4 (amended): whenever dialogue is enabled under advanced details, the
dialogue sentence embeds the integer parsed from the leading digits of
`duration`, defaulting to 5 both when the parse fails and when it yields 0
(JS `||` treats 0 as falsy); for "5-10 seconds" the embedded number is 5. -/
theorem C4_amended_dialogue_number (config : PromptConfig) (d : Draws)
    (h1 : oGet config.enable_advanced_details = true)
    (h2 : oProj config.audio (fun a => a.include_dialogue) = true) :
    (NL.promptClauses config d).filter (fun c => decide (c.1 = NL.Clause.dialogue)) =
      [(NL.Clause.dialogue,
        "Features "
          ++ toString (match parseIntJS (splitDash config.duration) with
              | none => (5 : Int)
              | some k => if k = 0 then 5 else k)
          ++ "-second dialogue segment with documentary-style narration.")] := by
  rw [filter_dialogue_eq_dialoguePart]
  unfold NL.dialoguePart NL.dialogueDurationNumber jsOrFive
  simp [h1, h2]

/-- C4 (witness): the amended theorem at duration "5-10 seconds" embeds 5. -/
theorem C4_witness :
    cfgDialogueFive.duration = "5-10 seconds" ∧
    (NL.promptClauses cfgDialogueFive d0).filter (fun c => decide (c.1 = NL.Clause.dialogue)) =
      [(NL.Clause.dialogue, "Features 5-second dialogue segment with documentary-style narration.")] := by
  refine ⟨rfl, ?_⟩
  have h := C4_amended_dialogue_number cfgDialogueFive d0 rfl rfl
  simpa using h

/-- Object lookup misses every key it is not mapped to. -/
theorem tableGet_eq_none {α : Type} :
    ∀ (tbl : List (String × α)) (key : String), key ∉ tbl.map Prod.fst → tableGet tbl key = none
  | [], _, _ => rfl
  | (k, v) :: rest, key, h => by
    simp only [List.map_cons, List.mem_cons, not_or] at h
    unfold tableGet
    rw [if_neg h.1]
    exact tableGet_eq_none rest key h.2

/-- Collapsing a doubled default lookup. -/
theorem getD_getD {α : Type} (o : Option α) (dflt : α) :
    o.getD (o.getD dflt) = o.getD dflt := by
  cases o <;> rfl

/-- A selector whose category lookup misses behaves like the selector at
the fallback category. -/
theorem tableSelect_fallback {tbl : List (String × List String)} {cat dflt : String}
    (h : tableGet tbl cat = none) (r : Nat) :
    pick ((tableGet tbl cat).getD ((tableGet tbl dflt).getD [])) r =
      pick ((tableGet tbl dflt).getD ((tableGet tbl dflt).getD [])) r := by
  rw [h, Option.getD_none, getD_getD]

/-- A refined selector at an absent, non-inherited key falls back to the
default category. -/
theorem selectFragmentJs_fallback {tbl : List (String × List String)} {dflt cat : String}
    (hnone : tableGet tbl cat = none) (hp : cat ∉ objectProtoKeys)
    (hpd : dflt ∉ objectProtoKeys) (r : Nat) :
    selectFragmentJs tbl dflt cat r = selectFragmentJs tbl dflt dflt r := by
  unfold selectFragmentJs jsIndex
  rw [hnone, if_neg hp]
  cases hd : tableGet tbl dflt with
  | some l => rfl
  | none => rw [if_neg hpd]

/-- C3 (counterexample): "constructor" is a key of no content table, yet
`subjects["constructor"]` is the truthy inherited `Object.prototype`
member, so the `||` fallback never fires: the selector yields `undefined`
(`none`) instead of a default-category fragment, and the JSON variant's
`baseTemplate` draw yields the `undefined` whose `.action` access throws
when `visual_details.include_action` is set. -/
theorem C3_counterexample :
    "constructor" ∉ NL.categoryKeys ++ JsonV.categoryKeys ∧
    jsIndex NL.subjects "constructor" = JsMember.inherited ∧
    selectFragmentJs NL.subjects "Sports & Athletics" "constructor" 0 = none ∧
    selectFragmentJs NL.subjects "Sports & Athletics" "constructor" 0 ≠
      selectFragmentJs NL.subjects "Sports & Athletics" "Sports & Athletics" 0 ∧
    selectFragmentJs JsonV.promptTemplates "Sports & Athletics" "constructor" 0 = none := by
  exact ⟨by decide, by decide, by decide, by decide, by decide⟩

/-- C3 (amended): for a category that is neither a key of any content
table nor the name of an inherited `Object.prototype` member, every
refined selector falls back to the fixed default category
"Sports & Athletics", and both assembler variants produce exactly the
output of the same config with the default category — nothing fails on
these inputs. -/
theorem C3_refined_category_fallback (config : PromptConfig) (d : Draws)
    (h : config.category ∉ NL.categoryKeys ++ JsonV.categoryKeys)
    (hp : config.category ∉ objectProtoKeys) :
    (∀ tbl ∈ allCategoryTables, ∀ r,
      selectFragmentJs tbl "Sports & Athletics" config.category r =
        selectFragmentJs tbl "Sports & Athletics" "Sports & Athletics" r) ∧
    NL.generatePromptFromConfig config d =
      NL.generatePromptFromConfig { config with category := "Sports & Athletics" } d ∧
    JsonV.generatePromptFromConfig config d =
      JsonV.generatePromptFromConfig { config with category := "Sports & Athletics" } d := by
  rw [List.mem_append, not_or] at h
  obtain ⟨hNL, hJ⟩ := h
  rw [NL.categoryKeys] at hNL
  simp only [List.mem_append, not_or] at hNL
  obtain ⟨⟨⟨⟨⟨⟨hsu, hwa⟩, hlo⟩, hen⟩, hpr⟩, ham⟩, hac⟩ := hNL
  rw [JsonV.categoryKeys] at hJ
  simp only [List.mem_append, not_or] at hJ
  obtain ⟨⟨⟨⟨⟨⟨⟨jsu, jwa⟩, jlo⟩, jen⟩, jac⟩, jpr⟩, jam⟩, jtp⟩ := hJ
  have s1 : ∀ r, NL.generateSubjectDescription config.category r =
      NL.generateSubjectDescription "Sports & Athletics" r := fun r => by
    unfold NL.generateSubjectDescription
    exact tableSelect_fallback (tableGet_eq_none _ _ hsu) r
  have s2 : ∀ r, NL.generateWardrobeDescription config.category r =
      NL.generateWardrobeDescription "Sports & Athletics" r := fun r => by
    unfold NL.generateWardrobeDescription
    exact tableSelect_fallback (tableGet_eq_none _ _ hwa) r
  have s3 : ∀ r, NL.generateLocationDescription config.category r =
      NL.generateLocationDescription "Sports & Athletics" r := fun r => by
    unfold NL.generateLocationDescription
    exact tableSelect_fallback (tableGet_eq_none _ _ hlo) r
  have s4 : ∀ r, NL.generateEnvironmentDescription config.category r =
      NL.generateEnvironmentDescription "Sports & Athletics" r := fun r => by
    unfold NL.generateEnvironmentDescription
    exact tableSelect_fallback (tableGet_eq_none _ _ hen) r
  have s5 : ∀ r, NL.generatePropsDescription config.category r =
      NL.generatePropsDescription "Sports & Athletics" r := fun r => by
    unfold NL.generatePropsDescription
    exact tableSelect_fallback (tableGet_eq_none _ _ hpr) r
  have s6 : ∀ r, NL.generateAmbientDescription config.category r =
      NL.generateAmbientDescription "Sports & Athletics" r := fun r => by
    unfold NL.generateAmbientDescription
    exact tableSelect_fallback (tableGet_eq_none _ _ ham) r
  have s7 : ∀ r, NL.generateActionDescription config.category r =
      NL.generateActionDescription "Sports & Athletics" r := fun r => by
    unfold NL.generateActionDescription
    exact tableSelect_fallback (tableGet_eq_none _ _ hac) r
  have j1 : ∀ r, JsonV.generateSubjectDescription config.category r =
      JsonV.generateSubjectDescription "Sports & Athletics" r := fun r => by
    unfold JsonV.generateSubjectDescription
    exact tableSelect_fallback (tableGet_eq_none _ _ jsu) r
  have j2 : ∀ r, JsonV.generateWardrobeDescription config.category r =
      JsonV.generateWardrobeDescription "Sports & Athletics" r := fun r => by
    unfold JsonV.generateWardrobeDescription
    exact tableSelect_fallback (tableGet_eq_none _ _ jwa) r
  have j3 : ∀ r, JsonV.generateLocationDescription config.category r =
      JsonV.generateLocationDescription "Sports & Athletics" r := fun r => by
    unfold JsonV.generateLocationDescription
    exact tableSelect_fallback (tableGet_eq_none _ _ jlo) r
  have j4 : ∀ r, JsonV.generateEnvironmentDescription config.category r =
      JsonV.generateEnvironmentDescription "Sports & Athletics" r := fun r => by
    unfold JsonV.generateEnvironmentDescription
    exact tableSelect_fallback (tableGet_eq_none _ _ jen) r
  have j5 : ∀ r, JsonV.generateActionDescription config.category r =
      JsonV.generateActionDescription "Sports & Athletics" r := fun r => by
    unfold JsonV.generateActionDescription
    exact tableSelect_fallback (tableGet_eq_none _ _ jac) r
  have j6 : ∀ r, JsonV.generatePropsDescription config.category r =
      JsonV.generatePropsDescription "Sports & Athletics" r := fun r => by
    unfold JsonV.generatePropsDescription
    exact tableSelect_fallback (tableGet_eq_none _ _ jpr) r
  have j7 : ∀ r, JsonV.generateAmbientDescription config.category r =
      JsonV.generateAmbientDescription "Sports & Athletics" r := fun r => by
    unfold JsonV.generateAmbientDescription
    exact tableSelect_fallback (tableGet_eq_none _ _ jam) r
  have j8 : ∀ r, JsonV.baseTemplateAction config.category r =
      JsonV.baseTemplateAction "Sports & Athletics" r := fun r => by
    unfold JsonV.baseTemplateAction
    exact tableSelect_fallback (tableGet_eq_none _ _ jtp) r
  refine ⟨?_, ?_, ?_⟩
  · intro tbl htbl r
    simp only [allCategoryTables, List.mem_cons, List.not_mem_nil, or_false] at htbl
    rcases htbl with rfl | rfl | rfl | rfl | rfl | rfl | rfl | rfl | rfl | rfl | rfl | rfl | rfl | rfl | rfl
    · exact selectFragmentJs_fallback (tableGet_eq_none _ _ hsu) hp (by decide) r
    · exact selectFragmentJs_fallback (tableGet_eq_none _ _ hwa) hp (by decide) r
    · exact selectFragmentJs_fallback (tableGet_eq_none _ _ hlo) hp (by decide) r
    · exact selectFragmentJs_fallback (tableGet_eq_none _ _ hen) hp (by decide) r
    · exact selectFragmentJs_fallback (tableGet_eq_none _ _ hpr) hp (by decide) r
    · exact selectFragmentJs_fallback (tableGet_eq_none _ _ ham) hp (by decide) r
    · exact selectFragmentJs_fallback (tableGet_eq_none _ _ hac) hp (by decide) r
    · exact selectFragmentJs_fallback (tableGet_eq_none _ _ jsu) hp (by decide) r
    · exact selectFragmentJs_fallback (tableGet_eq_none _ _ jwa) hp (by decide) r
    · exact selectFragmentJs_fallback (tableGet_eq_none _ _ jlo) hp (by decide) r
    · exact selectFragmentJs_fallback (tableGet_eq_none _ _ jen) hp (by decide) r
    · exact selectFragmentJs_fallback (tableGet_eq_none _ _ jac) hp (by decide) r
    · exact selectFragmentJs_fallback (tableGet_eq_none _ _ jpr) hp (by decide) r
    · exact selectFragmentJs_fallback (tableGet_eq_none _ _ jam) hp (by decide) r
    · exact selectFragmentJs_fallback (tableGet_eq_none _ _ jtp) hp (by decide) r
  · simp only [NL.generatePromptFromConfig, NL.promptClauses, NL.wardrobePart, NL.shotPart,
      NL.scenePart, NL.sceneElements, NL.propsPart, NL.cinematographyPart,
      NL.cinematographyElements, NL.effectsList, NL.ambientPart, NL.dialoguePart,
      NL.colorPalettePart, NL.stylePart, NL.complexityPart, NL.durationPart,
      s1, s2, s3, s4, s5, s6, s7]
  · simp only [JsonV.generatePromptFromConfig, j1, j2, j3, j4, j5, j6, j7, j8]

/-- C3 (witness): a concrete unknown, non-inherited category falls back to
the default in the refined selector and in the whole assembler. -/
theorem C3_witness :
    ("Deep Sea Exploration" ∉ NL.categoryKeys ++ JsonV.categoryKeys) ∧
    ("Deep Sea Exploration" ∉ objectProtoKeys) ∧
    selectFragmentJs NL.subjects "Sports & Athletics" "Deep Sea Exploration" 0 =
      selectFragmentJs NL.subjects "Sports & Athletics" "Sports & Athletics" 0 ∧
    NL.generatePromptFromConfig cfgUnknownCategory d0 =
      NL.generatePromptFromConfig { cfgUnknownCategory with category := "Sports & Athletics" } d0 := by
  refine ⟨by decide, by decide, ?_, ?_⟩
  · exact (C3_refined_category_fallback cfgUnknownCategory d0 (by decide) (by decide)).1
      NL.subjects (by simp [allCategoryTables]) 0
  · exact (C3_refined_category_fallback cfgUnknownCategory d0 (by decide) (by decide)).2.1

/-- The variation loop produces exactly as many entries as requested. -/
theorem variationsFrom_length (config : PromptConfig) (tape : Nat → Nat × Draws) :
    ∀ (k i : Nat), (NL.variationsFrom config tape i k).length = k
  | 0, _ => rfl
  | k + 1, i => by
    unfold NL.variationsFrom
    simp [variationsFrom_length config tape k (i + 1)]

/-- Each entry of the variation loop is one assembler call with only the
complexity re-drawn. -/
theorem variationsFrom_getD (config : PromptConfig) (tape : Nat → Nat × Draws) :
    ∀ (k i j : Nat), j < k →
      (NL.variationsFrom config tape i k).getD j "" =
        NL.generatePromptFromConfig
          { config with complexity := NL.getRandomComplexity (tape (i + j)).1 } (tape (i + j)).2
  | 0, _, j, h => absurd h (Nat.not_lt_zero j)
  | k + 1, i, 0, _ => by
    unfold NL.variationsFrom
    simp
  | k + 1, i, j + 1, h => by
    unfold NL.variationsFrom
    have harith : i + 1 + j = i + (j + 1) := by omega
    have hrec := variationsFrom_getD config tape k (i + 1) j (Nat.lt_of_succ_lt_succ h)
    rw [harith] at hrec
    simpa using hrec

/-- C6: `generatePromptVariations(config, n)` returns exactly `n` results;
entry `i` is one assembler call on the input config with `complexity`
replaced by the fresh draw of iteration `i`, all other fields unchanged,
and every such draw is one of Simple/Medium/Complex. -/
theorem C6_variations_count_and_shape (config : PromptConfig) (count : Nat)
    (tape : Nat → Nat × Draws) :
    (NL.generatePromptVariations config count tape).length = count ∧
    (∀ i, i < count →
      (NL.generatePromptVariations config count tape).getD i "" =
        NL.generatePromptFromConfig
          { config with complexity := NL.getRandomComplexity (tape i).1 } (tape i).2) ∧
    (∀ r, NL.getRandomComplexity r ∈ ["Simple", "Medium", "Complex"]) := by
  refine ⟨variationsFrom_length config tape count 0, ?_, ?_⟩
  · intro i hi
    have := variationsFrom_getD config tape count 0 i hi
    simpa using this
  · intro r
    have h3 : r % 3 = 0 ∨ r % 3 = 1 ∨ r % 3 = 2 := by omega
    rcases h3 with h | h | h <;> simp [NL.getRandomComplexity, pick, h]

/-- C6 (witness): two variations from the sample config. -/
theorem C6_witness :
    (NL.generatePromptVariations sampleConfig 2 (fun _ => (0, d0))).length = 2 ∧
    (NL.generatePromptVariations sampleConfig 2 (fun _ => (0, d0))).getD 0 "" =
      NL.generatePromptFromConfig { sampleConfig with complexity := NL.getRandomComplexity 0 } d0 := by
  refine ⟨(C6_variations_count_and_shape sampleConfig 2 (fun _ => (0, d0))).1, ?_⟩
  have := (C6_variations_count_and_shape sampleConfig 2 (fun _ => (0, d0))).2.1 0 (by decide)
  simpa using this

/-- Updating a keyed entry in place: lookup of the updated key. -/
theorem mapGet_map_update_self {α : Type} (upd : α → α) (id : Nat) :
    ∀ (l : List (Nat × α)) (t : α), mapGet l id = some t →
      mapGet (l.map (fun p => if p.1 = id then (p.1, upd p.2) else p)) id = some (upd t)
  | [], t, h => by simp [mapGet] at h
  | (k, v) :: rest, t, h => by
    unfold mapGet at h
    by_cases hk : id = k
    · subst hk
      rw [if_pos rfl] at h
      injection h with hv
      subst hv
      show mapGet ((if (id, v).1 = id then ((id, v).1, upd (id, v).2) else (id, v)) :: _) id = _
      rw [if_pos rfl]
      unfold mapGet
      rw [if_pos rfl]
    · rw [if_neg hk] at h
      have hk2 : ¬(k = id) := fun he => hk he.symm
      show mapGet ((if (k, v).1 = id then ((k, v).1, upd (k, v).2) else (k, v)) :: _) id = _
      rw [if_neg hk2]
      unfold mapGet
      rw [if_neg hk]
      exact mapGet_map_update_self upd id rest t h

/-- Updating a keyed entry in place: lookups of all other keys are
untouched. -/
theorem mapGet_map_update_other {α : Type} (upd : α → α) (id j : Nat) (hne : j ≠ id) :
    ∀ (l : List (Nat × α)),
      mapGet (l.map (fun p => if p.1 = id then (p.1, upd p.2) else p)) j = mapGet l j
  | [] => rfl
  | (k, v) :: rest => by
    by_cases hk : k = id
    · subst hk
      show mapGet ((if (k, v).1 = k then ((k, v).1, upd (k, v).2) else (k, v)) :: _) j = _
      rw [if_pos rfl]
      unfold mapGet
      rw [if_neg hne, if_neg hne]
      exact mapGet_map_update_other upd k j hne rest
    · show mapGet ((if (k, v).1 = id then ((k, v).1, upd (k, v).2) else (k, v)) :: _) j = _
      rw [if_neg hk]
      unfold mapGet
      by_cases hj : j = k
      · rw [if_pos hj, if_pos hj]
      · rw [if_neg hj, if_neg hj]
        exact mapGet_map_update_other upd id j hne rest

/-- C7: `updateTemplateUsage` on a present id bumps exactly that template's
usage count by one and leaves its other fields, all other templates, the
prompts and the id counters untouched; the use-route on an absent id
answers not-found and leaves the state unchanged. -/
theorem C7_update_template_usage (s : MemStorage) (id : Nat) :
    (∀ t, mapGet s.templates id = some t →
      mapGet (updateTemplateUsage s id).templates id =
        some { t with usageCount := t.usageCount + 1 } ∧
      (∀ j, j ≠ id → mapGet (updateTemplateUsage s id).templates j = mapGet s.templates j) ∧
      (updateTemplateUsage s id).prompts = s.prompts ∧
      (updateTemplateUsage s id).currentPromptId = s.currentPromptId ∧
      (updateTemplateUsage s id).currentTemplateId = s.currentTemplateId) ∧
    (mapGet s.templates id = none → useTemplateRoute s id = (s, UseResponse.notFound)) := by
  constructor
  · intro t ht
    unfold updateTemplateUsage
    rw [ht]
    refine ⟨?_, ?_, rfl, rfl, rfl⟩
    · exact mapGet_map_update_self (fun x => { x with usageCount := x.usageCount + 1 }) id s.templates t ht
    · intro j hj
      exact mapGet_map_update_other (fun x => { x with usageCount := x.usageCount + 1 }) id j hj s.templates
  · intro hn
    unfold useTemplateRoute getTemplateById
    rw [hn]

/-- C7 (witness): concrete storage with one template. -/
theorem C7_witness :
    mapGet sampleStorage.templates 1 = some sampleTemplate ∧
    mapGet (updateTemplateUsage sampleStorage 1).templates 1 =
      some { sampleTemplate with usageCount := sampleTemplate.usageCount + 1 } ∧
    (updateTemplateUsage sampleStorage 1).prompts = sampleStorage.prompts ∧
    mapGet sampleStorage.templates 2 = none ∧
    useTemplateRoute sampleStorage 2 = (sampleStorage, UseResponse.notFound) :=
  ⟨rfl,
   ((C7_update_template_usage sampleStorage 1).1 sampleTemplate rfl).1,
   ((C7_update_template_usage sampleStorage 1).1 sampleTemplate rfl).2.2.1,
   rfl,
   (C7_update_template_usage sampleStorage 2).2 rfl⟩

/-- C8 (counterexample): with two stored prompts, `getPrompts` at limit 0
returns both of them — more than the limit — because a zero limit is falsy
and skips the slice. -/
theorem C8_counterexample :
    sampleStorage.prompts.length = 2 ∧
    (getPrompts sampleStorage (some 0)).length = 2 ∧
    ¬((getPrompts sampleStorage (some 0)).length ≤ 0) := by
  refine ⟨rfl, rfl, ?_⟩
  rw [show (getPrompts sampleStorage (some 0)).length = 2 from rfl]
  omega

/-- C8 (amended): for every storage state and every positive limit `n`,
`getPrompts` returns the first `n` entries of the full newest-first list —
hence at most `n` prompts, sorted by descending creation time, and drawn
from a permutation of all stored prompts. -/
theorem C8_amended_getPrompts (s : MemStorage) (n : Nat) (h : 0 < n) :
    getPrompts s (some n) = (getPrompts s none).take n ∧
    (getPrompts s (some n)).length ≤ n ∧
    List.Sorted promptOrder (getPrompts s none) ∧
    (getPrompts s none).Perm (s.prompts.map Prod.snd) := by
  refine ⟨?_, ?_, ?_, ?_⟩
  · simp [getPrompts, h]
  · simp [getPrompts, h]
  · simp only [getPrompts]
    exact List.sorted_insertionSort promptOrder _
  · simp only [getPrompts]
    exact List.perm_insertionSort promptOrder _

/-- C8 (witness): limit 1 on the concrete storage. -/
theorem C8_witness :
    (0 : Nat) < 1 ∧
    getPrompts sampleStorage (some 1) = (getPrompts sampleStorage none).take 1 ∧
    (getPrompts sampleStorage (some 1)).length ≤ 1 :=
  ⟨by decide,
   (C8_amended_getPrompts sampleStorage 1 (by decide)).1,
   (C8_amended_getPrompts sampleStorage 1 (by decide)).2.1⟩

/-- C10: a limit of exactly 0 is falsy, so `getPrompts` skips the slice
and returns the full newest-first list of all stored prompts. -/
theorem C10_limit_zero_returns_all (s : MemStorage) :
    getPrompts s (some 0) = getPrompts s none ∧
    (getPrompts s (some 0)).Perm (s.prompts.map Prod.snd) := by
  constructor
  · simp [getPrompts]
  · simp only [getPrompts]
    exact List.perm_insertionSort promptOrder _
